import Mathlib

/-!
Verification of the fingerprint core of the go-gost/x TLS/HTTP fingerprint
engine: JA3/JA4 codecs, ClientHello spec builders, HTTP/2 profile
validation and the fingerprinted TLS dial/upgrade pipeline.

Go strings are embedded as lists of characters (all inputs of interest are
ASCII, where Go's byte-wise indexing agrees with character indexing).
Go slices of uint16/uint8 are embedded as lists of Nat together with
explicit bounds where they matter.  Maps are embedded as association
lists; fallible operations return Option or an explicit result type.
-/

set_option maxRecDepth 4000

abbrev Str := List Char

/-- Value of a decimal digit character (Go: c - '0'). -/
def digitVal (c : Char) : Nat := c.toNat - 48

/-- Decimal digit test (Go: '0' <= c && c <= '9'). -/
def isDigitCh (c : Char) : Bool := 48 ≤ c.toNat && c.toNat ≤ 57

/-- Decimal value of a digit string, folding left as Go's strconv does. -/
def strVal (s : Str) : Nat := s.foldl (fun a c => a * 10 + digitVal c) 0

/-- Embedding of Go `strconv.ParseUint(s, 10, bits)`: digits only, no sign,
rejects the empty string, errors when the value does not fit in `bits`
bits.  (Go detects overflow with a running cutoff check, which for base 10
errors exactly when the represented value exceeds the width.) -/
def goParseUint (bits : Nat) (s : Str) : Option Nat :=
  if s = [] then none
  else if s.all isDigitCh then
    if strVal s < 2 ^ bits then some (strVal s) else none
  else none

/-- Digits of `n` in base `b`, most significant first, driven by explicit
fuel so that the recursion is structural and kernel-reducible. -/
def toDigitsAux (b : Nat) : Nat → Nat → List Nat
  | 0, _ => []
  | fuel + 1, n => if n < b then [n] else toDigitsAux b fuel (n / b) ++ [n % b]

/-- Canonical decimal string of a natural number (no leading zeros). -/
def numStr (n : Nat) : Str := (toDigitsAux 10 (n + 1) n).map Nat.digitChar

/-- Lowercase hexadecimal string of a natural number (no leading zeros). -/
def hexStr (n : Nat) : Str := (toDigitsAux 16 (n + 1) n).map Nat.digitChar

/-- Left-pad with '0' to width `w` (Go `fmt` zero-padded verbs). -/
def padZero (w : Nat) (s : Str) : Str := List.replicate (w - s.length) '0' ++ s

/-- Go `fmt.Sprintf("%02x", n)`. -/
def hex2 (n : Nat) : Str := padZero 2 (hexStr n)

/-- Go `fmt.Sprintf("%04x", n)`. -/
def hex4 (n : Nat) : Str := padZero 4 (hexStr n)

/-- Join a list of strings with a single-character separator
(Go `strings.Join(parts, sep)` for one-character separators). -/
def joinCh (sep : Char) (parts : List Str) : Str := List.intercalate [sep] parts

/-- Go `strings.Split(s, sep)` for a one-character separator. -/
def splitCh (sep : Char) (s : Str) : List Str := s.splitOn sep

/-- Parsed JA3 fingerprint components (source: `ja3.JA3Data`). -/
structure JA3Data where
  version : Nat
  cipherSuites : List Nat
  extensions : List Nat
  supportedGroups : List Nat
  ellipticCurvePoint : List Nat
  deriving DecidableEq, Repr

/-- One dash-separated JA3 field: an empty field yields an empty list,
otherwise every dash-separated token must parse as a uint of the given
width (source: the per-field loops of `ja3.ParseJA3`). -/
def parseNumList (bits : Nat) : List Str → Option (List Nat)
  | [] => some []
  | t :: rest =>
    match goParseUint bits t, parseNumList bits rest with
    | some v, some vs => some (v :: vs)
    | _, _ => none

def parseJA3Field (bits : Nat) (s : Str) : Option (List Nat) :=
  if s = [] then some []
  else parseNumList bits (splitCh '-' s)

/-- Embedding of `ja3.ParseJA3`: split on ',', demand exactly five parts,
parse the version (an empty version field is left at zero) and the four
dash-separated lists (u16 for the first three, u8 for point formats). -/
def parseJA3 (s : Str) : Option JA3Data :=
  match splitCh ',' s with
  | [p0, p1, p2, p3, p4] => do
    let version ← if p0 = [] then some 0 else goParseUint 16 p0
    let ciphers ← parseJA3Field 16 p1
    let exts ← parseJA3Field 16 p2
    let groups ← parseJA3Field 16 p3
    let points ← parseJA3Field 8 p4
    some ⟨version, ciphers, exts, groups, points⟩
  | _ => none

/-- Modelled from the spec: the repository has no JA3 serializer under
src/ (only the parser); §3 and §4.2 define the canonical string form
`v,c1-c2-...,e1-e2-...,g1-g2-...,p1-p2-...` and state that `serialize`
is the inverse of `parse`. -/
def serializeJA3 (d : JA3Data) : Str :=
  joinCh ','
    [ numStr d.version
    , joinCh '-' (d.cipherSuites.map numStr)
    , joinCh '-' (d.extensions.map numStr)
    , joinCh '-' (d.supportedGroups.map numStr)
    , joinCh '-' (d.ellipticCurvePoint.map numStr) ]

/-- Field-width invariants of a JA3 value (first four fields u16, point
formats u8), as stated in §3 of the spec and enforced by the parser. -/
def ja3Valid (d : JA3Data) : Bool :=
  d.version < 65536
    && d.cipherSuites.all (· < 65536)
    && d.extensions.all (· < 65536)
    && d.supportedGroups.all (· < 65536)
    && d.ellipticCurvePoint.all (· < 256)

/-! ## JA4 codec (source: `internal/util/ja3/ja4.go`) -/

/-- Input for JA4 generation (source: `ja3.JA4Data`). -/
structure JA4Data where
  isQUIC : Bool
  tlsVersion : Nat
  serverName : Str
  cipherSuites : List Nat
  extensions : List Nat
  alpnProtocols : List Str
  supportedGroups : List Nat
  deriving DecidableEq, Repr

/-- Parsed JA4 fingerprint (source: `ja3.JA4Fingerprint`).  The raw
carrier fields of the Go struct are kept. -/
structure JA4Fingerprint where
  protocol : Str
  tlsVersionTag : Str
  sni : Str
  cipherCount : Str
  extensionCount : Str
  cipherHash : Str
  extensionHash : Str
  rawCipherSuites : List Nat
  rawExtensions : List Nat
  hasSNI : Bool
  alpnProtocols : List Str
  deriving DecidableEq, Repr

/-- Source: `formatTLSVersion`. -/
def formatTLSVersion (version : Nat) : Str :=
  if version = 0x0300 then ['s', '3']
  else if version = 0x0301 then ['1', '0']
  else if version = 0x0302 then ['1', '1']
  else if version = 0x0303 then ['1', '2']
  else if version = 0x0304 then ['1', '3']
  else ['0', '0']

/-- Hex digit test used by the IPv6 heuristic of `determineSNIType`. -/
def isHexCh (c : Char) : Bool :=
  (48 ≤ c.toNat && c.toNat ≤ 57) || (97 ≤ c.toNat && c.toNat ≤ 102)
    || (65 ≤ c.toNat && c.toNat ≤ 70)

/-- Source: `determineSNIType` — "i" for empty, IPv4-looking
(digits and dots only) or IPv6-looking (has a colon, all other
characters hex) names, otherwise "d". -/
def determineSNIType (serverName : Str) : Str :=
  if serverName = [] then ['i']
  else if serverName.all (fun c => isDigitCh c || c = '.') then ['i']
  else if serverName.any (· = ':') && serverName.all (fun c => c = ':' || isHexCh c)
    then ['i']
  else ['d']

/-! ### SHA-256 (Go `crypto/sha256`, FIPS 180-4), on byte lists -/

def w32 (n : Nat) : Nat := n % 4294967296

def rotr32 (k w : Nat) : Nat := w32 ((w >>> k) ||| (w <<< (32 - k)))

def shaCh (x y z : Nat) : Nat := w32 ((x &&& y) ^^^ ((x ^^^ 4294967295) &&& z))

def shaMaj (x y z : Nat) : Nat := w32 ((x &&& y) ^^^ (x &&& z) ^^^ (y &&& z))

def bigSigma0 (x : Nat) : Nat := rotr32 2 x ^^^ rotr32 13 x ^^^ rotr32 22 x

def bigSigma1 (x : Nat) : Nat := rotr32 6 x ^^^ rotr32 11 x ^^^ rotr32 25 x

def smallSigma0 (x : Nat) : Nat := rotr32 7 x ^^^ rotr32 18 x ^^^ (x >>> 3)

def smallSigma1 (x : Nat) : Nat := rotr32 17 x ^^^ rotr32 19 x ^^^ (x >>> 10)

def shaK : List Nat :=
  [ 1116352408, 1899447441, 3049323471, 3921009573, 961987163
  , 1508970993, 2453635748, 2870763221, 3624381080, 310598401
  , 607225278, 1426881987, 1925078388, 2162078206, 2614888103
  , 3248222580, 3835390401, 4022224774, 264347078, 604807628
  , 770255983, 1249150122, 1555081692, 1996064986, 2554220882
  , 2821834349, 2952996808, 3210313671, 3336571891, 3584528711
  , 113926993, 338241895, 666307205, 773529912, 1294757372
  , 1396182291, 1695183700, 1986661051, 2177026350, 2456956037
  , 2730485921, 2820302411, 3259730800, 3345764771, 3516065817
  , 3600352804, 4094571909, 275423344, 430227734, 506948616
  , 659060556, 883997877, 958139571, 1322822218, 1537002063
  , 1747873779, 1955562222, 2024104815, 2227730452, 2361852424
  , 2428436474, 2756734187, 3204031479, 3329325298 ]

def shaH0 : List Nat :=
  [ 1779033703, 3144134277, 1013904242, 2773480762
  , 1359893119, 2600822924, 528734635, 1541459225 ]

/-- Big-endian byte expansion of `n` to `w` bytes. -/
def bytesBE (w n : Nat) : List Nat :=
  (List.range w).map fun i => (n >>> (8 * (w - 1 - i))) % 256

/-- SHA-256 message padding: 0x80, zeros to 56 mod 64, 64-bit bit length. -/
def shaPad (msg : List Nat) : List Nat :=
  msg ++ [0x80] ++ List.replicate ((119 - msg.length % 64) % 64) 0
    ++ bytesBE 8 (8 * msg.length)

/-- Split into 64-byte blocks (fuel-driven structural recursion). -/
def chunk64 : Nat → List Nat → List (List Nat)
  | 0, _ => []
  | _, [] => []
  | fuel + 1, l => l.take 64 :: chunk64 fuel (l.drop 64)

/-- First 16 words (big-endian) of a block. -/
def blockWords (block : List Nat) : List Nat :=
  (List.range 16).map fun i =>
    ((block.getD (4 * i) 0) <<< 24) + ((block.getD (4 * i + 1) 0) <<< 16)
      + ((block.getD (4 * i + 2) 0) <<< 8) + block.getD (4 * i + 3) 0

/-- Message schedule: extend 16 words to 64. -/
def shaSchedule (block : List Nat) : List Nat :=
  (List.range 48).foldl
    (fun w _ =>
      let t := w.length
      w ++ [w32 (smallSigma1 (w.getD (t - 2) 0) + w.getD (t - 7) 0
        + smallSigma0 (w.getD (t - 15) 0) + w.getD (t - 16) 0)])
    (blockWords block)

/-- One compression round. -/
def shaRound (st : List Nat) (kw : Nat × Nat) : List Nat :=
  match st with
  | [a, b, c, d, e, f, g, h] =>
    let t1 := w32 (h + bigSigma1 e + shaCh e f g + kw.1 + kw.2)
    let t2 := w32 (bigSigma0 a + shaMaj a b c)
    [w32 (t1 + t2), a, b, c, w32 (d + t1), e, f, g]
  | st => st

/-- Compress one 64-byte block into the hash state. -/
def shaCompress (st : List Nat) (block : List Nat) : List Nat :=
  let out := (shaK.zip (shaSchedule block)).foldl (fun s kw => shaRound s (kw.1, kw.2)) st
  (st.zip out).map fun p => w32 (p.1 + p.2)

/-- SHA-256 digest (32 bytes) of a byte list. -/
def sha256 (msg : List Nat) : List Nat :=
  let padded := shaPad msg
  let final := (chunk64 (padded.length + 1) padded).foldl shaCompress shaH0
  final.flatMap (bytesBE 4)

/-- Go `hex.EncodeToString` (lowercase). -/
def hexEncode (bytes : List Nat) : Str :=
  bytes.flatMap fun b => [Nat.digitChar (b / 16), Nat.digitChar (b % 16)]

/-- UTF-8 bytes of an ASCII string (Go `[]byte(s)`; all hash inputs here
are ASCII so the code-point value is the byte). -/
def strBytes (s : Str) : List Nat := s.map Char.toNat

/-- Source: `generateCipherHash` — first 12 hex chars of SHA-256 over the
cipher ids in original order, `%04x`-formatted and comma-joined; an empty
list hashes the empty byte string. -/
def generateCipherHash (cipherSuites : List Nat) : Str :=
  if cipherSuites = [] then (hexEncode (sha256 [])).take 12
  else
    (hexEncode (sha256 (strBytes (joinCh ',' (cipherSuites.map hex4))))).take 12

/-- Source: `generateExtensionHash` — drop SNI (0) and ALPN (16), sort
ascending, `%04x`-format, comma-join, SHA-256, first 12 hex chars; an
empty input or empty filtered list hashes the empty byte string. -/
def generateExtensionHash (extensions : List Nat) : Str :=
  if extensions = [] then (hexEncode (sha256 [])).take 12
  else
    let filtered := extensions.filter fun e => e ≠ 0 && e ≠ 16
    if filtered = [] then (hexEncode (sha256 [])).take 12
    else
      (hexEncode (sha256 (strBytes (joinCh ','
        ((filtered.mergeSort (· ≤ ·)).map hex4))))).take 12

/-- Source: `GenerateJA4` (on a non-nil `JA4Data`). -/
def generateJA4 (data : JA4Data) : JA4Fingerprint :=
  { protocol := if data.isQUIC then ['q'] else ['t']
  , tlsVersionTag := formatTLSVersion data.tlsVersion
  , sni := determineSNIType data.serverName
  , cipherCount := hex2 (min data.cipherSuites.length 255)
  , extensionCount := hex2 (min data.extensions.length 255)
  , cipherHash := generateCipherHash data.cipherSuites
  , extensionHash := generateExtensionHash data.extensions
  , rawCipherSuites := data.cipherSuites
  , rawExtensions := data.extensions
  , hasSNI := data.serverName ≠ []
  , alpnProtocols := data.alpnProtocols }

/-- Part a of the emitted string (source: `JA4Fingerprint.String`):
protocol, TLS-version tag, SNI char, cipher count, extension count. -/
def ja4PartA (fp : JA4Fingerprint) : Str :=
  fp.protocol ++ fp.tlsVersionTag ++ fp.sni ++ fp.cipherCount ++ fp.extensionCount

/-- Full `a_b_c` string (source: `JA4Fingerprint.String`). -/
def ja4String (fp : JA4Fingerprint) : Str :=
  ja4PartA fp ++ ['_'] ++ fp.cipherHash ++ ['_'] ++ fp.extensionHash
/-- The JA3 strings of the browser profile catalog (source:
`fingerprint.BrowserProfiles`; the Name, UserAgent and JA4 fields are
omitted here as no verified property consumes them). -/
def browserProfilesJA3 : List (String × String) :=
  [ ("chrome_modern", "771,4865-4866-4867-49195-49199-49196-49200-52393-52392-49171-49172-156-157-47-53,0-23-65281-10-11-35-16-5-13-18-51-45-43-27-21,29-23-24,0")
  , ("chrome_108", "771,4865-4866-4867-49195-49199-49196-49200-52393-52392-49171-49172-156-157-47-53,0-23-65281-10-11-35-16-5-13-18-51-45-43-27-17513-21,29-23-24,0")
  , ("firefox_latest", "771,4865-4867-4866-49195-49199-52393-52392-49196-49200-49162-49161-49171-49172-156-157-47-53,0-23-65281-10-11-35-16-5-51-43-13-45-28-21,29-23-24-25-256-257,0")
  , ("firefox_102", "771,4865-4867-4866-49195-49199-52393-52392-49196-49200-49162-49161-49171-49172-156-157-47-53,0-23-65281-10-11-35-16-5-51-43-13-45-28-21,29-23-24-25,0")
  , ("safari_17", "771,4865-4866-4867-49196-49195-52393-49200-49199-52392-49162-49161-49172-49171-157-156-53-47-49160-49170-10,0-23-65281-10-11-16-5-13-18-51-45-43-27-21,29-23-24-25,0")
  , ("safari_ios_17", "771,4865-4866-4867-49196-49195-52393-49200-49199-52392-49162-49161-49172-49171-157-156-53-47,0-23-65281-10-11-16-5-13,29-23-24-25,0")
  , ("edge_latest", "771,4865-4866-4867-49195-49199-49196-49200-52393-52392-49171-49172-156-157-47-53,0-23-65281-10-11-35-16-5-13-18-51-45-43-27-21,29-23-24,0")
  , ("android_chrome", "771,4865-4866-4867-49195-49199-49196-49200-52393-52392-49171-49172-156-157-47-53,0-23-65281-10-11-35-16-5-13-51-45-43-27-21,29-23-24,0")
  , ("okhttp_android", "771,4865-4866-4867-49195-49199-49196-49200-52393-52392-49171-49172-156-157-47-53,0-23-65281-10-11-35-16-5-13,29-23-24,0")
  , ("chrome_98", "771,4865-4866-4867-49195-49199-49196-49200-52393-52392-49171-49172-156-157-47-53,0-23-65281-10-11-35-16-5-13-18-51-45-43-27,29-23-24,0")
  , ("firefox_91", "771,4865-4867-4866-49195-49199-52393-52392-49196-49200-49162-49161-49171-49172-156-157-47-53,0-23-65281-10-11-35-16-5-51-43-13-45-28,29-23-24-25,0")
  , ("curl_latest", "771,4865-4866-4867-49195-49199-49196-49200-52393-52392-49171-49172-156-157-47-53,0-23-65281-10-11-35-16-5-13,29-23-24,0")
  , ("python_requests", "771,4866-4867-4865-49200-49196-49192-49188-49172-49162-159-107-57-52393-52392-52394-65413-196-136-129-157-61-53-132-49199-49195-49191-49187-49171-49161-158-103-51-190-69-156-60-47-186-65-49169-49159-5-4-49170-49160-22-10-255,11-10-35-22-23-13-43-45-51,29-23-30-25-24,0-1-2")
  , ("go_http", "771,4865-4866-4867-49195-49199-49196-49200-52393-52392-49171-49172-156-157-47-53,0-23-65281-10-11-35-16-5-13,29-23-24,0")
  , ("brave_browser", "771,4865-4866-4867-49195-49199-49196-49200-52393-52392-49171-49172-156-157-47-53,0-23-65281-10-11-35-16-5-13-18-51-45-43-27-21,29-23-24,0")
  , ("samsung_internet", "771,4865-4866-4867-49195-49199-49196-49200-52393-52392-49171-49172-156-157-47-53,0-23-65281-10-11-35-16-5-13-51-45-43-27-21,29-23-24,0")
  , ("firefox_android", "771,4865-4867-4866-49195-49199-52393-52392-49196-49200-49162-49161-49171-49172-156-157-47-53,0-23-65281-10-11-35-16-5-51-43-13-45-28-21,29-23-24-25,0")
  , ("safari_ipad", "771,4865-4866-4867-49196-49195-52393-49200-49199-52392-49162-49161-49172-49171-157-156-53-47,0-23-65281-10-11-16-5-13,29-23-24-25,0")
  , ("opera_gx", "771,4865-4866-4867-49195-49199-49196-49200-52393-52392-49171-49172-156-157-47-53,0-23-65281-10-11-35-16-5-13-18-51-45-43-27-21,29-23-24,0")
  , ("vivaldi", "771,4865-4866-4867-49195-49199-49196-49200-52393-52392-49171-49172-156-157-47-53,0-23-65281-10-11-35-16-5-13-18-51-45-43-27-21,29-23-24,0")
  , ("tor_browser", "771,4865-4867-4866-49195-49199-52393-52392-49196-49200-49162-49161-49171-49172-156-157-47-53,0-23-65281-10-11-35-16-5-51-43-13-45-28-21,29-23-24-25,0")
  , ("yandex_browser", "771,4865-4866-4867-49195-49199-49196-49200-52393-52392-49171-49172-156-157-47-53,0-23-65281-10-11-35-16-5-13-18-51-45-43-27-21,29-23-24,0")
  , ("uc_browser", "771,4865-4866-4867-49195-49199-49196-49200-52393-52392-49171-49172-156-157-47-53,0-23-65281-10-11-35-16-5-13,29-23-24,0")
  , ("whale_browser", "771,4865-4866-4867-49195-49199-49196-49200-52393-52392-49171-49172-156-157-47-53,0-23-65281-10-11-35-16-5-13-18-51-45-43-27-21,29-23-24,0")
  , ("edge_mobile", "771,4865-4866-4867-49195-49199-49196-49200-52393-52392-49171-49172-156-157-47-53,0-23-65281-10-11-35-16-5-13-51-45-43-27-21,29-23-24,0")
  , ("opera_mobile", "771,4865-4866-4867-49195-49199-49196-49200-52393-52392-49171-49172-156-157-47-53,0-23-65281-10-11-35-16-5-13-51-45-43-27-21,29-23-24,0")
  , ("duckduckgo_browser", "771,4865-4866-4867-49195-49199-49196-49200-52393-52392-49171-49172-156-157-47-53,0-23-65281-10-11-35-16-5-13,29-23-24,0")
  , ("ecosia_browser", "771,4865-4866-4867-49195-49199-49196-49200-52393-52392-49171-49172-156-157-47-53,0-23-65281-10-11-35-16-5-13-18-51-45-43-27-21,29-23-24,0")
  , ("maxthon_browser", "771,4865-4866-4867-49195-49199-49196-49200-52393-52392-49171-49172-156-157-47-53,0-23-65281-10-11-35-16-5-13,29-23-24,0")
  ]

/-- Source: `fingerprint.GetBrowserJA3` — the profile's JA3 string, or ""
when the name is unknown. -/
def getBrowserJA3 (profileName : String) : String :=
  match browserProfilesJA3.lookup profileName with
  | some ja3 => ja3
  | none => ""

/-! ## ClientHello spec builder from JA3
(source: `internal/util/ja3` builder, `src/unnamed/part_001`) -/

/-- Closed sum of the utls extension values the builders emit.  Payload
lists carry the numeric ids (curves, point formats, signature schemes,
supported versions, key-share groups) or strings (SNI name, ALPN
protocols). -/
inductive TLSExtension where
  | sni (serverName : Str)
  | statusRequest
  | supportedGroups (curves : List Nat)
  | ecPointFormats (points : List Nat)
  | signatureAlgorithms (algs : List Nat)
  | alpn (protocols : List Str)
  | sct
  | padding
  | extendedMasterSecret
  | sessionTicket
  | supportedVersions (versions : List Nat)
  | pskKeyExchangeModes (modes : List Nat)
  | keyShare (groups : List Nat)
  | renegotiationInfo
  | generic (id : Nat)
  deriving DecidableEq, Repr

/-- Build output consumed by the TLS engine (source: `utls.ClientHelloSpec`
as populated by the builders). -/
structure ClientHelloSpec where
  tlsVersMin : Nat
  tlsVersMax : Nat
  cipherSuites : List Nat
  compressionMethods : List Nat
  extensions : List TLSExtension
  deriving DecidableEq, Repr

/-- Source: `ja3.buildExtension`.  Every Go branch returns a non-nil
extension: the cases for ids 0, 10 and 11 fall through to the trailing
`GenericExtension` return when their data is absent, so the function is
total.  The fixed signature-algorithm, ALPN, supported-versions,
PSK-mode and key-share defaults are the literal values of the source. -/
def buildExtension (extID : Nat) (data : JA3Data) (serverName : Str) : TLSExtension :=
  if extID = 0 then (if serverName ≠ [] then .sni serverName else .generic 0)
  else if extID = 5 then .statusRequest
  else if extID = 10 then
    (if data.supportedGroups ≠ [] then .supportedGroups data.supportedGroups
     else .generic 10)
  else if extID = 11 then
    (if data.ellipticCurvePoint ≠ [] then .ecPointFormats data.ellipticCurvePoint
     else .generic 11)
  else if extID = 13 then
    .signatureAlgorithms [0x0403, 0x0804, 0x0401, 0x0503, 0x0805, 0x0501, 0x0806, 0x0601]
  else if extID = 16 then .alpn [('h' :: ['2']), ("http/1.1").toList]
  else if extID = 18 then .sct
  else if extID = 21 then .padding
  else if extID = 23 then .extendedMasterSecret
  else if extID = 27 then .generic 27
  else if extID = 35 then .sessionTicket
  else if extID = 43 then .supportedVersions [0x0304, 0x0303]
  else if extID = 45 then .pskKeyExchangeModes [1]
  else if extID = 51 then .keyShare [29]
  else if extID = 65281 then .renegotiationInfo
  else .generic extID

/-- Source: `ja3.BuildClientHelloSpecFromJA3` (on non-nil data).  The Go
loop appends `buildExtension` results, guarded by a nil check that never
fires because `buildExtension` is total. -/
def buildClientHelloSpecFromJA3 (data : JA3Data) (serverName : Str) : ClientHelloSpec :=
  { tlsVersMin := data.version
  , tlsVersMax := data.version
  , cipherSuites := data.cipherSuites
  , compressionMethods := []
  , extensions :=
      data.extensions.foldl (fun acc extID => acc ++ [buildExtension extID data serverName]) [] }

/-- Extension ids given a dedicated (non-Generic) case by
`ja3.buildExtension`; 27 is matched but deliberately emitted as Generic. -/
def recognizedJA3ExtensionIDs : List Nat :=
  [0, 5, 10, 11, 13, 16, 18, 21, 23, 27, 35, 43, 45, 51, 65281]

/-! ## ClientHello spec builders from JSON descriptors
(primary schema: `fingerprint.BuildClientHelloSpecFromJSON`;
fallback schema: `ja3.BuildClientHelloSpecFromFile`) -/

/-- Does `sub` occur as a prefix of some suffix of `s`? -/
def containsStrAux (sub : Str) : Str → Bool
  | [] => sub.isPrefixOf []
  | c :: rest => sub.isPrefixOf (c :: rest) || containsStrAux sub rest

/-- Go `strings.Contains(s, sub)`. -/
def containsStr (s sub : Str) : Bool := containsStrAux sub s

/-- Go `strings.Index(s, c)` for a one-character pattern, as an Option. -/
def goIndexCh (s : Str) (c : Char) : Option Nat := s.findIdx? (· = c)

def isSpaceCh (c : Char) : Bool :=
  c = ' ' || c = '\t' || c = '\n' || c = '\x0d'

/-- Go `strings.TrimSpace` (ASCII whitespace). -/
def trimSpace (s : Str) : Str :=
  ((s.dropWhile isSpaceCh).reverse.dropWhile isSpaceCh).reverse

/-- Go `strconv.Atoi`: optional sign, decimal digits, 64-bit range. -/
def goAtoi (s : Str) : Option Int :=
  match s with
  | '-' :: rest =>
    (goParseUint 63 rest).map fun n => -(n : Int)
  | '+' :: rest =>
    (goParseUint 63 rest).map fun n => (n : Int)
  | s =>
    (goParseUint 63 s).map fun n => (n : Int)

/-- Go conversion of an int to uint16 (two's-complement truncation). -/
def intToU16 (i : Int) : Nat := (i.emod 65536).toNat

/-- Extension object of the JSON descriptor, with the fields the two
builders consume (`data`, `PSK_Key_Exchange_Mode`, `status_request`,
`shared_keys` and the master-secret fields are carried by the Go structs
but never read by the builders, and are omitted). -/
structure ExtensionJSON where
  name : Str
  serverName : Str
  ellipticCurvesPointFormats : List Str
  supportedGroups : List Str
  protocols : List Str
  signatureAlgorithms : List Str
  versions : List Str
  paddingDataLength : Nat
  deriving DecidableEq, Repr

/-- Top-level `tls` object of the primary (tls.peet.ws) schema; the
`ja3`, `ja3_hash`, `ja4`, `http_version` and `user_agent` fields are not
read by the builder. -/
structure ClientHelloJSON where
  ciphers : List Str
  extensions : List ExtensionJSON
  deriving DecidableEq, Repr

/-- Top-level `tls` object of the fallback schema
(`ja3.ClientHelloSpecFile`); only the fields the builder reads. -/
structure ClientHelloSpecFile where
  ciphers : List Str
  extensions : List ExtensionJSON
  tlsVersionRecord : Str
  deriving DecidableEq, Repr

/-- Source: `fingerprint.parseCipherSuiteName` (0 when unknown). -/
def parseCipherSuiteName (name : Str) : Nat :=
  if name = ("TLS_AES_128_GCM_SHA256").toList then 0x1301
  else if name = ("TLS_AES_256_GCM_SHA384").toList then 0x1302
  else if name = ("TLS_CHACHA20_POLY1305_SHA256").toList then 0x1303
  else if name = ("TLS_AES_128_CCM_SHA256").toList then 0x1304
  else if name = ("TLS_AES_128_CCM_8_SHA256").toList then 0x1305
  else if name = ("TLS_ECDHE_ECDSA_WITH_AES_128_GCM_SHA256").toList then 0xc02b
  else if name = ("TLS_ECDHE_ECDSA_WITH_AES_256_GCM_SHA384").toList then 0xc02c
  else if name = ("TLS_ECDHE_ECDSA_WITH_AES_128_CBC_SHA").toList then 0xc009
  else if name = ("TLS_ECDHE_ECDSA_WITH_AES_256_CBC_SHA").toList then 0xc00a
  else if name = ("TLS_ECDHE_ECDSA_WITH_AES_128_CBC_SHA256").toList then 0xc023
  else if name = ("TLS_ECDHE_ECDSA_WITH_AES_256_CBC_SHA384").toList then 0xc024
  else if name = ("TLS_ECDHE_ECDSA_WITH_CHACHA20_POLY1305_SHA256").toList then 0xcca9
  else if name = ("TLS_ECDHE_RSA_WITH_AES_128_GCM_SHA256").toList then 0xc02f
  else if name = ("TLS_ECDHE_RSA_WITH_AES_256_GCM_SHA384").toList then 0xc030
  else if name = ("TLS_ECDHE_RSA_WITH_AES_128_CBC_SHA").toList then 0xc013
  else if name = ("TLS_ECDHE_RSA_WITH_AES_256_CBC_SHA").toList then 0xc014
  else if name = ("TLS_ECDHE_RSA_WITH_AES_128_CBC_SHA256").toList then 0xc027
  else if name = ("TLS_ECDHE_RSA_WITH_AES_256_CBC_SHA384").toList then 0xc028
  else if name = ("TLS_ECDHE_RSA_WITH_CHACHA20_POLY1305_SHA256").toList then 0xcca8
  else if name = ("TLS_RSA_WITH_AES_128_GCM_SHA256").toList then 0x009c
  else if name = ("TLS_RSA_WITH_AES_256_GCM_SHA384").toList then 0x009d
  else if name = ("TLS_RSA_WITH_AES_128_CBC_SHA").toList then 0x002f
  else if name = ("TLS_RSA_WITH_AES_256_CBC_SHA").toList then 0x0035
  else if name = ("TLS_RSA_WITH_AES_128_CBC_SHA256").toList then 0x003c
  else if name = ("TLS_RSA_WITH_AES_256_CBC_SHA256").toList then 0x003d
  else if name = ("TLS_DHE_RSA_WITH_AES_128_GCM_SHA256").toList then 0x009e
  else if name = ("TLS_DHE_RSA_WITH_AES_256_GCM_SHA384").toList then 0x009f
  else if name = ("TLS_DHE_RSA_WITH_AES_128_CBC_SHA").toList then 0x0033
  else if name = ("TLS_DHE_RSA_WITH_AES_256_CBC_SHA").toList then 0x0039
  else if name = ("TLS_DHE_RSA_WITH_AES_128_CBC_SHA256").toList then 0x0067
  else if name = ("TLS_DHE_RSA_WITH_AES_256_CBC_SHA256").toList then 0x006b
  else if name = ("TLS_DHE_RSA_WITH_CHACHA20_POLY1305_SHA256").toList then 0xccaa
  else if name = ("TLS_RSA_WITH_3DES_EDE_CBC_SHA").toList then 0x000a
  else if name = ("TLS_RSA_WITH_RC4_128_SHA").toList then 0x0005
  else if name = ("TLS_RSA_WITH_RC4_128_MD5").toList then 0x0004
  else if name = ("TLS_ECDHE_RSA_WITH_3DES_EDE_CBC_SHA").toList then 0xc012
  else if name = ("TLS_ECDHE_ECDSA_WITH_3DES_EDE_CBC_SHA").toList then 0xc008
  else if name = ("TLS_PSK_WITH_AES_128_GCM_SHA256").toList then 0x00a8
  else if name = ("TLS_PSK_WITH_AES_256_GCM_SHA384").toList then 0x00a9
  else if name = ("TLS_PSK_WITH_AES_128_CBC_SHA256").toList then 0x00ae
  else if name = ("TLS_DHE_PSK_WITH_AES_128_GCM_SHA256").toList then 0x00aa
  else if name = ("TLS_DHE_PSK_WITH_AES_256_GCM_SHA384").toList then 0x00ab
  else if name = ("TLS_ECDHE_PSK_WITH_AES_128_CBC_SHA256").toList then 0xc037
  else if name = ("TLS_ECDHE_PSK_WITH_AES_256_CBC_SHA384").toList then 0xc038
  else if name = ("TLS_ECDHE_PSK_WITH_CHACHA20_POLY1305_SHA256").toList then 0xccac
  else if name = ("TLS_RSA_WITH_ARIA_128_GCM_SHA256").toList then 0xc050
  else if name = ("TLS_RSA_WITH_ARIA_256_GCM_SHA384").toList then 0xc051
  else if name = ("TLS_ECDHE_ECDSA_WITH_ARIA_128_GCM_SHA256").toList then 0xc05c
  else if name = ("TLS_ECDHE_ECDSA_WITH_ARIA_256_GCM_SHA384").toList then 0xc05d
  else if name = ("TLS_ECDHE_RSA_WITH_ARIA_128_GCM_SHA256").toList then 0xc060
  else if name = ("TLS_ECDHE_RSA_WITH_ARIA_256_GCM_SHA384").toList then 0xc061
  else 0

/-- Source: `fingerprint.parseSupportedGroup` — exact-name map, then an
id extracted from a parenthesized suffix via Atoi, else 0. -/
def parseSupportedGroup (name : Str) : Nat :=
  if name = ("X25519 (29)").toList then 29
  else if name = ("P-256 (23)").toList then 23
  else if name = ("P-384 (24)").toList then 24
  else if name = ("P-521 (25)").toList then 25
  else
    match goIndexCh name '(' with
    | none => 0
    | some idx =>
      match goIndexCh (name.drop idx) ')' with
      | none => 0
      | some endIdx =>
        match goAtoi (trimSpace ((name.drop (idx + 1)).take (endIdx - 1))) with
        | some id => intToU16 id
        | none => 0

/-- Hexadecimal digit value (0 for non-hex input). -/
def hexDigitVal (c : Char) : Nat :=
  if 48 ≤ c.toNat && c.toNat ≤ 57 then c.toNat - 48
  else if 97 ≤ c.toNat && c.toNat ≤ 102 then c.toNat - 87
  else if 65 ≤ c.toNat && c.toNat ≤ 70 then c.toNat - 55
  else 0

def hexVal (s : Str) : Nat := s.foldl (fun a c => a * 16 + hexDigitVal c) 0

/-- Source: `fingerprint.parsePointFormat` — strip "0x", parse as a hex
u8 via ParseUint(pf, 16, 8), 255 on failure. -/
def parsePointFormat (pf : Str) : Nat :=
  let pf := if pf.take 2 = ['0', 'x'] then pf.drop 2 else pf
  if pf ≠ [] && pf.all isHexCh && hexVal pf < 256 then hexVal pf else 255

/-- Source: `fingerprint.parseSignatureAlgorithm` (0 when unknown). -/
def parseSignatureAlgorithm (name : Str) : Nat :=
  if name = ("ecdsa_secp256r1_sha256").toList then 0x0403
  else if name = ("ecdsa_secp384r1_sha384").toList then 0x0503
  else if name = ("ecdsa_secp521r1_sha512").toList then 0x0603
  else if name = ("rsa_pss_rsae_sha256").toList then 0x0804
  else if name = ("rsa_pss_rsae_sha384").toList then 0x0805
  else if name = ("rsa_pss_rsae_sha512").toList then 0x0806
  else if name = ("rsa_pkcs1_sha256").toList then 0x0401
  else if name = ("rsa_pkcs1_sha384").toList then 0x0501
  else if name = ("rsa_pkcs1_sha512").toList then 0x0601
  else if name = ("rsa_pkcs1_sha1").toList then 0x0201
  else 0

/-- Source: `fingerprint.parseTLSVersion` (0 when unknown). -/
def parseTLSVersionName (ver : Str) : Nat :=
  if ver = ("TLS 1.3").toList then 0x0304
  else if ver = ("TLS 1.2").toList then 0x0303
  else if ver = ("TLS 1.1").toList then 0x0302
  else if ver = ("TLS 1.0").toList then 0x0301
  else 0

/-- Source: `ja3.ParseCipherName` (errors on unknown names). -/
def parseCipherName (name : Str) : Option Nat :=
  if name = ("TLS_AES_128_GCM_SHA256").toList then some 0x1301
  else if name = ("TLS_AES_256_GCM_SHA384").toList then some 0x1302
  else if name = ("TLS_CHACHA20_POLY1305_SHA256").toList then some 0x1303
  else if name = ("TLS_ECDHE_ECDSA_WITH_AES_128_GCM_SHA256").toList then some 0xc02b
  else if name = ("TLS_ECDHE_RSA_WITH_AES_128_GCM_SHA256").toList then some 0xc02f
  else if name = ("TLS_ECDHE_ECDSA_WITH_AES_256_GCM_SHA384").toList then some 0xc02c
  else if name = ("TLS_ECDHE_RSA_WITH_AES_256_GCM_SHA384").toList then some 0xc030
  else if name = ("TLS_ECDHE_ECDSA_WITH_CHACHA20_POLY1305_SHA256").toList then some 0xcca9
  else if name = ("TLS_ECDHE_RSA_WITH_CHACHA20_POLY1305_SHA256").toList then some 0xcca8
  else if name = ("TLS_ECDHE_RSA_WITH_AES_128_CBC_SHA").toList then some 0xc013
  else if name = ("TLS_ECDHE_RSA_WITH_AES_256_CBC_SHA").toList then some 0xc014
  else if name = ("TLS_RSA_WITH_AES_128_GCM_SHA256").toList then some 0x009c
  else if name = ("TLS_RSA_WITH_AES_256_GCM_SHA384").toList then some 0x009d
  else if name = ("TLS_RSA_WITH_AES_128_CBC_SHA").toList then some 0x002f
  else if name = ("TLS_RSA_WITH_AES_256_CBC_SHA").toList then some 0x0035
  else if name = ("TLS_ECDHE_ECDSA_WITH_AES_128_CBC_SHA").toList then some 0xc009
  else if name = ("TLS_ECDHE_ECDSA_WITH_AES_256_CBC_SHA").toList then some 0xc00a
  else none

/-- Source: `ja3.ParseSupportedGroup` — parenthesized numeric id first
(only when "(" occurs at a positive index and ")" after it), then a
name map on the trimmed name, else an error. -/
def ja3ParseSupportedGroup (name : Str) : Option Nat :=
  let fromParens : Option Nat :=
    match goIndexCh name '(' with
    | none => none
    | some idx =>
      if idx > 0 then
        match goIndexCh name ')' with
        | none => none
        | some endIdx =>
          if endIdx > idx then
            goParseUint 16 (trimSpace ((name.drop (idx + 1)).take (endIdx - (idx + 1))))
          else none
      else none
  match fromParens with
  | some v => some v
  | none =>
    let n := trimSpace name
    if n = ("X25519").toList then some 29
    else if n = ("P-256").toList then some 23
    else if n = ("P-384").toList then some 24
    else if n = ("P-521").toList then some 25
    else if n = ("secp256r1").toList then some 23
    else if n = ("secp384r1").toList then some 24
    else if n = ("secp521r1").toList then some 25
    else if n = ("x25519").toList then some 29
    else none

/-- Source: `ja3.ParseSignatureAlgorithm` (errors on unknown names). -/
def ja3ParseSignatureAlgorithm (name : Str) : Option Nat :=
  if name = ("rsa_pkcs1_sha256").toList then some 0x0401
  else if name = ("rsa_pkcs1_sha384").toList then some 0x0501
  else if name = ("rsa_pkcs1_sha512").toList then some 0x0601
  else if name = ("ecdsa_secp256r1_sha256").toList then some 0x0403
  else if name = ("ecdsa_secp384r1_sha384").toList then some 0x0503
  else if name = ("ecdsa_secp521r1_sha512").toList then some 0x0603
  else if name = ("rsa_pss_rsae_sha256").toList then some 0x0804
  else if name = ("rsa_pss_rsae_sha384").toList then some 0x0805
  else if name = ("rsa_pss_rsae_sha512").toList then some 0x0806
  else if name = ("ed25519").toList then some 0x0807
  else if name = ("rsa_pss_pss_sha256").toList then some 0x0809
  else if name = ("rsa_pss_pss_sha384").toList then some 0x080a
  else if name = ("rsa_pss_pss_sha512").toList then some 0x080b
  else none

/-- Source: `ja3.ParseTLSVersion` — version-name map, then a plain
decimal u16, else an error. -/
def ja3ParseTLSVersion (version : Str) : Option Nat :=
  if version = ("TLS 1.0").toList then some 0x0301
  else if version = ("TLS 1.1").toList then some 0x0302
  else if version = ("TLS 1.2").toList then some 0x0303
  else if version = ("TLS 1.3").toList then some 0x0304
  else if version = ("SSL 3.0").toList then some 0x0300
  else goParseUint 16 version

/-- Go `fmt.Sscanf(s, "%02x", &point)` with the error ignored: the value
scanned from the longest hex prefix, 0 when the scan fails. -/
def sscanfHex2 (s : Str) : Nat :=
  let pfx := s.takeWhile isHexCh
  if pfx = [] then 0 else hexVal pfx

/-- Mutable state of the primary builder's extension loop: the emitted
extensions plus the `curves`, `alpnProtocols` and `serverName` variables
declared before the loop in `BuildClientHelloSpecFromJSON`. -/
structure PrimaryLoopState where
  exts : List TLSExtension
  curves : List Nat
  alpnProtocols : List Str
  serverName : Str
  deriving Repr

/-- One iteration of the primary builder's extension loop (the switch of
`fingerprint.BuildClientHelloSpecFromJSON`, cases in source order). -/
def primaryStep (st : PrimaryLoopState) (e : ExtensionJSON) : PrimaryLoopState :=
  if containsStr e.name ("server_name").toList then
    let sn := e.serverName
    { st with serverName := sn
            , exts := if sn ≠ [] then st.exts ++ [.sni sn] else st.exts }
  else if containsStr e.name ("supported_groups").toList then
    let curves := st.curves ++
      (e.supportedGroups.filterMap fun g =>
        let id := parseSupportedGroup g
        if id ≠ 0 then some id else none)
    { st with curves := curves, exts := st.exts ++ [.supportedGroups curves] }
  else if containsStr e.name ("ec_point_formats").toList then
    let formats := e.ellipticCurvesPointFormats.filterMap fun pf =>
      let v := parsePointFormat pf
      if v ≠ 255 then some v else none
    { st with exts := st.exts ++ [.ecPointFormats formats] }
  else if containsStr e.name ("application_layer_protocol_negotiation").toList then
    { st with alpnProtocols := e.protocols, exts := st.exts ++ [.alpn e.protocols] }
  else if containsStr e.name ("signature_algorithms").toList then
    let algs := e.signatureAlgorithms.filterMap fun a =>
      let v := parseSignatureAlgorithm a
      if v ≠ 0 then some v else none
    { st with exts := st.exts ++ [.signatureAlgorithms algs] }
  else if containsStr e.name ("supported_versions").toList then
    let vers := e.versions.filterMap fun v =>
      let id := parseTLSVersionName v
      if id ≠ 0 then some id else none
    { st with exts := st.exts ++ [.supportedVersions vers] }
  else if containsStr e.name ("key_share").toList then
    if st.curves ≠ [] then { st with exts := st.exts ++ [.keyShare []] } else st
  else if containsStr e.name ("psk_key_exchange_modes").toList then
    { st with exts := st.exts ++ [.pskKeyExchangeModes [1]] }
  else if containsStr e.name ("session_ticket").toList then
    { st with exts := st.exts ++ [.sessionTicket] }
  else if containsStr e.name ("status_request").toList then
    { st with exts := st.exts ++ [.statusRequest] }
  else if containsStr e.name ("signed_certificate_timestamp").toList then
    { st with exts := st.exts ++ [.sct] }
  else if containsStr e.name ("extended_master_secret").toList then
    { st with exts := st.exts ++ [.extendedMasterSecret] }
  else if containsStr e.name ("renegotiation_info").toList
      || containsStr e.name ("extensionRenegotiationInfo").toList then
    { st with exts := st.exts ++ [.renegotiationInfo] }
  else if containsStr e.name ("padding").toList then
    if e.paddingDataLength > 0 then { st with exts := st.exts ++ [.padding] } else st
  else st

/-- Source: `fingerprint.BuildClientHelloSpecFromJSON` (primary schema). -/
def buildClientHelloSpecFromJSON (chJSON : ClientHelloJSON) : ClientHelloSpec :=
  { tlsVersMin := 0x0301
  , tlsVersMax := 0x0304
  , cipherSuites := chJSON.ciphers.filterMap fun n =>
      let id := parseCipherSuiteName n
      if id ≠ 0 then some id else none
  , compressionMethods := [0]
  , extensions := (chJSON.extensions.foldl primaryStep ⟨[], [], [], []⟩).exts }

/-- Mutable state of the fallback builder's extension loop: emitted
extensions plus the `supportedGroups`, `supportedPoints`,
`signatureAlgorithms`, `supportedVersions` and `alpnProtocols` variables
declared before the loop in `BuildClientHelloSpecFromFile`. -/
structure FallbackLoopState where
  exts : List TLSExtension
  supportedGroups : List Nat
  supportedPoints : List Nat
  signatureAlgorithms : List Nat
  supportedVersions : List Nat
  alpnProtocols : List Str
  deriving Repr

/-- One iteration of the fallback builder's extension loop (the switch of
`ja3.BuildClientHelloSpecFromFile`, cases in source order).  The
collecting cases only accumulate; their extensions are appended after
the loop. -/
def fallbackStep (serverName : Str) (st : FallbackLoopState) (e : ExtensionJSON) :
    FallbackLoopState :=
  if containsStr e.name ("server_name").toList then
    if serverName ≠ [] then { st with exts := st.exts ++ [.sni serverName] } else st
  else if containsStr e.name ("supported_groups").toList then
    { st with supportedGroups := st.supportedGroups ++
        e.supportedGroups.filterMap ja3ParseSupportedGroup }
  else if containsStr e.name ("ec_point_formats").toList then
    { st with supportedPoints := st.supportedPoints ++
        (e.ellipticCurvesPointFormats.filterMap fun pf =>
          let pf := if pf.take 2 = ['0', 'x'] then pf.drop 2 else pf
          if pf.length = 2 then some (sscanfHex2 pf) else none) }
  else if containsStr e.name ("signature_algorithms").toList then
    { st with signatureAlgorithms := st.signatureAlgorithms ++
        e.signatureAlgorithms.filterMap ja3ParseSignatureAlgorithm }
  else if containsStr e.name ("application_layer_protocol_negotiation").toList then
    { st with alpnProtocols := e.protocols }
  else if containsStr e.name ("supported_versions").toList then
    { st with supportedVersions := st.supportedVersions ++
        e.versions.filterMap ja3ParseTLSVersion }
  else if containsStr e.name ("key_share").toList then
    st
  else if containsStr e.name ("padding").toList then
    if e.paddingDataLength > 0 then { st with exts := st.exts ++ [.padding] } else st
  else if containsStr e.name ("session_ticket").toList then
    { st with exts := st.exts ++ [.sessionTicket] }
  else if containsStr e.name ("extended_master_secret").toList then
    { st with exts := st.exts ++ [.extendedMasterSecret] }
  else if containsStr e.name ("status_request").toList then
    { st with exts := st.exts ++ [.statusRequest] }
  else if containsStr e.name ("psk_key_exchange_modes").toList then
    { st with exts := st.exts ++ [.pskKeyExchangeModes [1]] }
  else if containsStr e.name ("signed_certificate_timestamp").toList then
    { st with exts := st.exts ++ [.sct] }
  else if containsStr e.name ("renegotiation_info").toList then
    { st with exts := st.exts ++ [.renegotiationInfo] }
  else st

/-- The trailing appends of `ja3.BuildClientHelloSpecFromFile`: the
collected groups, point formats, signature algorithms, supported
versions and ALPN protocols, each only when non-empty, in this order. -/
def fallbackCollected (st : FallbackLoopState) : List TLSExtension :=
  (if st.supportedGroups ≠ [] then [TLSExtension.supportedGroups st.supportedGroups] else [])
    ++ (if st.supportedPoints ≠ [] then [TLSExtension.ecPointFormats st.supportedPoints] else [])
    ++ (if st.signatureAlgorithms ≠ [] then
          [TLSExtension.signatureAlgorithms st.signatureAlgorithms] else [])
    ++ (if st.supportedVersions ≠ [] then
          [TLSExtension.supportedVersions st.supportedVersions] else [])
    ++ (if st.alpnProtocols ≠ [] then [TLSExtension.alpn st.alpnProtocols] else [])

/-- Source: `ja3.BuildClientHelloSpecFromFile` (fallback schema, on a
non-nil descriptor). -/
def buildClientHelloSpecFromFile (spec : ClientHelloSpecFile) (serverName : Str) :
    ClientHelloSpec :=
  let version :=
    if spec.tlsVersionRecord ≠ [] then
      match ja3ParseTLSVersion spec.tlsVersionRecord with
      | some v => v
      | none => 0
    else 0
  let final := spec.extensions.foldl (fallbackStep serverName) ⟨[], [], [], [], [], []⟩
  { tlsVersMin := version
  , tlsVersMax := version
  , cipherSuites := spec.ciphers.filterMap parseCipherName
  , compressionMethods := []
  , extensions := final.exts ++ fallbackCollected final }

/-! ## HTTP/2 profile model and transport configurator
(source: `src/unnamed/part_002` and the HTTP/2 profile catalog) -/

/-- Source: `fingerprint.HTTP2Priority`. -/
structure HTTP2Priority where
  streamDependency : Nat
  weight : Nat
  exclusive : Bool
  deriving DecidableEq, Repr

/-- Source: `fingerprint.HTTP2Profile`; the SETTINGS map is embedded as
an association list (validation only performs keyed lookups, so Go's map
iteration order is irrelevant). -/
structure HTTP2Profile where
  name : String
  fingerprint : String
  settings : List (Nat × Nat)
  windowUpdate : Nat
  priority : Option HTTP2Priority
  headerTableSize : Nat
  pseudoHeaderOrder : String
  deriving DecidableEq, Repr
/-- The HTTP/2 browser profile catalog (source:
`fingerprint.HTTP2ProfilesDB`). -/
def http2ProfilesDB : List (String × HTTP2Profile) :=
  [ ("chrome_120",
     { name := "Chrome 120", fingerprint := "1:65536;2:0;3:100;4:6291456;6:262144|15663105|0|m,a,s,p"
     , settings := [(1, 65536), (2, 0), (3, 100), (4, 6291456), (6, 262144)]
     , windowUpdate := 15663105, priority := some ⟨0, 255, true⟩
     , headerTableSize := 65536, pseudoHeaderOrder := "m,a,s,p" })
  , ("chrome_108",
     { name := "Chrome 108", fingerprint := "1:65536;2:0;3:100;4:6291456;6:262144|15663105|0|m,a,s,p"
     , settings := [(1, 65536), (2, 0), (3, 100), (4, 6291456), (6, 262144)]
     , windowUpdate := 15663105, priority := some ⟨0, 255, true⟩
     , headerTableSize := 65536, pseudoHeaderOrder := "m,a,s,p" })
  , ("firefox_120",
     { name := "Firefox 120", fingerprint := "1:65536;2:0;4:131072;5:16384|12517377|0|m,p,a,s"
     , settings := [(1, 65536), (2, 0), (4, 131072), (5, 16384)]
     , windowUpdate := 12517377, priority := some ⟨0, 255, false⟩
     , headerTableSize := 65536, pseudoHeaderOrder := "m,p,a,s" })
  , ("firefox_102",
     { name := "Firefox 102", fingerprint := "1:65536;2:0;4:131072;5:16384|12517377|0|m,p,a,s"
     , settings := [(1, 65536), (2, 0), (4, 131072), (5, 16384)]
     , windowUpdate := 12517377, priority := some ⟨0, 255, false⟩
     , headerTableSize := 65536, pseudoHeaderOrder := "m,p,a,s" })
  , ("safari_17",
     { name := "Safari 17", fingerprint := "2:0;3:100;4:6291456;6:262144|15663105|0|m,a,s,p"
     , settings := [(2, 0), (3, 100), (4, 6291456), (6, 262144)]
     , windowUpdate := 15663105, priority := some ⟨0, 255, true⟩
     , headerTableSize := 4096, pseudoHeaderOrder := "m,a,s,p" })
  , ("safari_ios_17",
     { name := "Safari iOS 17", fingerprint := "2:0;3:100;4:6291456;6:262144|15663105|0|m,a,s,p"
     , settings := [(2, 0), (3, 100), (4, 6291456), (6, 262144)]
     , windowUpdate := 15663105, priority := some ⟨0, 255, true⟩
     , headerTableSize := 4096, pseudoHeaderOrder := "m,a,s,p" })
  , ("edge_120",
     { name := "Edge 120", fingerprint := "1:65536;2:0;3:100;4:6291456;6:262144|15663105|0|m,a,s,p"
     , settings := [(1, 65536), (2, 0), (3, 100), (4, 6291456), (6, 262144)]
     , windowUpdate := 15663105, priority := some ⟨0, 255, true⟩
     , headerTableSize := 65536, pseudoHeaderOrder := "m,a,s,p" })
  , ("android_chrome",
     { name := "Chrome Android", fingerprint := "1:65536;2:0;3:100;4:6291456;6:262144|15663105|0|m,a,s,p"
     , settings := [(1, 65536), (2, 0), (3, 100), (4, 6291456), (6, 262144)]
     , windowUpdate := 15663105, priority := some ⟨0, 255, true⟩
     , headerTableSize := 65536, pseudoHeaderOrder := "m,a,s,p" })
  , ("brave_browser",
     { name := "Brave Browser", fingerprint := "1:65536;2:0;3:100;4:6291456;6:262144|15663105|0|m,a,s,p"
     , settings := [(1, 65536), (2, 0), (3, 100), (4, 6291456), (6, 262144)]
     , windowUpdate := 15663105, priority := some ⟨0, 255, true⟩
     , headerTableSize := 65536, pseudoHeaderOrder := "m,a,s,p" })
  , ("samsung_internet",
     { name := "Samsung Internet", fingerprint := "1:65536;2:0;3:100;4:6291456;6:262144|15663105|0|m,a,s,p"
     , settings := [(1, 65536), (2, 0), (3, 100), (4, 6291456), (6, 262144)]
     , windowUpdate := 15663105, priority := some ⟨0, 255, true⟩
     , headerTableSize := 65536, pseudoHeaderOrder := "m,a,s,p" })
  , ("firefox_android",
     { name := "Firefox Android", fingerprint := "1:65536;2:0;4:131072;5:16384|12517377|0|m,p,a,s"
     , settings := [(1, 65536), (2, 0), (4, 131072), (5, 16384)]
     , windowUpdate := 12517377, priority := some ⟨0, 255, false⟩
     , headerTableSize := 65536, pseudoHeaderOrder := "m,p,a,s" })
  , ("safari_ipad",
     { name := "Safari iPad", fingerprint := "2:0;3:100;4:6291456;6:262144|15663105|0|m,a,s,p"
     , settings := [(2, 0), (3, 100), (4, 6291456), (6, 262144)]
     , windowUpdate := 15663105, priority := some ⟨0, 255, true⟩
     , headerTableSize := 4096, pseudoHeaderOrder := "m,a,s,p" })
  , ("opera_gx",
     { name := "Opera GX", fingerprint := "1:65536;2:0;3:100;4:6291456;6:262144|15663105|0|m,a,s,p"
     , settings := [(1, 65536), (2, 0), (3, 100), (4, 6291456), (6, 262144)]
     , windowUpdate := 15663105, priority := some ⟨0, 255, true⟩
     , headerTableSize := 65536, pseudoHeaderOrder := "m,a,s,p" })
  , ("vivaldi",
     { name := "Vivaldi", fingerprint := "1:65536;2:0;3:100;4:6291456;6:262144|15663105|0|m,a,s,p"
     , settings := [(1, 65536), (2, 0), (3, 100), (4, 6291456), (6, 262144)]
     , windowUpdate := 15663105, priority := some ⟨0, 255, true⟩
     , headerTableSize := 65536, pseudoHeaderOrder := "m,a,s,p" })
  , ("tor_browser",
     { name := "Tor Browser", fingerprint := "1:65536;2:0;4:131072;5:16384|12517377|0|m,p,a,s"
     , settings := [(1, 65536), (2, 0), (4, 131072), (5, 16384)]
     , windowUpdate := 12517377, priority := some ⟨0, 255, false⟩
     , headerTableSize := 65536, pseudoHeaderOrder := "m,p,a,s" })
  , ("yandex_browser",
     { name := "Yandex Browser", fingerprint := "1:65536;2:0;3:100;4:6291456;6:262144|15663105|0|m,a,s,p"
     , settings := [(1, 65536), (2, 0), (3, 100), (4, 6291456), (6, 262144)]
     , windowUpdate := 15663105, priority := some ⟨0, 255, true⟩
     , headerTableSize := 65536, pseudoHeaderOrder := "m,a,s,p" })
  , ("uc_browser",
     { name := "UC Browser", fingerprint := "1:65536;2:0;3:100;4:6291456;6:262144|15663105|0|m,a,s,p"
     , settings := [(1, 65536), (2, 0), (3, 100), (4, 6291456), (6, 262144)]
     , windowUpdate := 15663105, priority := some ⟨0, 255, true⟩
     , headerTableSize := 65536, pseudoHeaderOrder := "m,a,s,p" })
  , ("whale_browser",
     { name := "Naver Whale", fingerprint := "1:65536;2:0;3:100;4:6291456;6:262144|15663105|0|m,a,s,p"
     , settings := [(1, 65536), (2, 0), (3, 100), (4, 6291456), (6, 262144)]
     , windowUpdate := 15663105, priority := some ⟨0, 255, true⟩
     , headerTableSize := 65536, pseudoHeaderOrder := "m,a,s,p" })
  , ("edge_mobile",
     { name := "Edge Mobile", fingerprint := "1:65536;2:0;3:100;4:6291456;6:262144|15663105|0|m,a,s,p"
     , settings := [(1, 65536), (2, 0), (3, 100), (4, 6291456), (6, 262144)]
     , windowUpdate := 15663105, priority := some ⟨0, 255, true⟩
     , headerTableSize := 65536, pseudoHeaderOrder := "m,a,s,p" })
  , ("opera_mobile",
     { name := "Opera Mobile", fingerprint := "1:65536;2:0;3:100;4:6291456;6:262144|15663105|0|m,a,s,p"
     , settings := [(1, 65536), (2, 0), (3, 100), (4, 6291456), (6, 262144)]
     , windowUpdate := 15663105, priority := some ⟨0, 255, true⟩
     , headerTableSize := 65536, pseudoHeaderOrder := "m,a,s,p" })
  , ("duckduckgo_browser",
     { name := "DuckDuckGo Browser", fingerprint := "1:65536;2:0;3:100;4:6291456;6:262144|15663105|0|m,a,s,p"
     , settings := [(1, 65536), (2, 0), (3, 100), (4, 6291456), (6, 262144)]
     , windowUpdate := 15663105, priority := some ⟨0, 255, true⟩
     , headerTableSize := 65536, pseudoHeaderOrder := "m,a,s,p" })
  , ("ecosia_browser",
     { name := "Ecosia Browser", fingerprint := "1:65536;2:0;3:100;4:6291456;6:262144|15663105|0|m,a,s,p"
     , settings := [(1, 65536), (2, 0), (3, 100), (4, 6291456), (6, 262144)]
     , windowUpdate := 15663105, priority := some ⟨0, 255, true⟩
     , headerTableSize := 65536, pseudoHeaderOrder := "m,a,s,p" })
  , ("maxthon_browser",
     { name := "Maxthon Browser", fingerprint := "1:65536;2:0;3:100;4:6291456;6:262144|15663105|0|m,a,s,p"
     , settings := [(1, 65536), (2, 0), (3, 100), (4, 6291456), (6, 262144)]
     , windowUpdate := 15663105, priority := some ⟨0, 255, true⟩
     , headerTableSize := 65536, pseudoHeaderOrder := "m,a,s,p" })
  , ("curl_latest",
     { name := "curl 8.x", fingerprint := "2:0;3:100;4:1048576|1048576|0|m,a,s,p"
     , settings := [(2, 0), (3, 100), (4, 1048576)]
     , windowUpdate := 1048576, priority := none
     , headerTableSize := 4096, pseudoHeaderOrder := "m,a,s,p" })
  , ("go_http",
     { name := "Go HTTP Client", fingerprint := "3:100;4:1048576;6:262144|1048576|0|m,a,s,p"
     , settings := [(3, 100), (4, 1048576), (6, 262144)]
     , windowUpdate := 1048576, priority := none
     , headerTableSize := 4096, pseudoHeaderOrder := "m,a,s,p" })
  , ("okhttp_android",
     { name := "OkHttp Android", fingerprint := "1:65536;2:1;3:1000;4:6291456|10485760|0|m,a,s,p"
     , settings := [(1, 65536), (2, 1), (3, 1000), (4, 6291456)]
     , windowUpdate := 10485760, priority := none
     , headerTableSize := 65536, pseudoHeaderOrder := "m,a,s,p" })
  ]

/-- Source: `fingerprint.GetHTTP2Profile`. -/
def getHTTP2Profile (name : String) : Option HTTP2Profile :=
  http2ProfilesDB.lookup name

/-- The distinct warnings `ValidateHTTP2Config` can emit, one constructor
per `warnings = append(...)` site (the Go warning strings carry the same
information in prose; the formatted-in values are kept as arguments). -/
inductive H2Warning where
  | headerTableSize
  | enablePush
  | initialWindowSize
  | maxFrameSize
  | windowUpdate (value : Nat)
  | pseudoHeaderOrder (order : String)
  | priority
  deriving DecidableEq, Repr

/-- Source: the warning-collection body of `ValidateHTTP2Config`, branch
for branch in source order. -/
def validateHTTP2Profile (profile : HTTP2Profile) : List H2Warning :=
  (match profile.settings.lookup 1 with
    | some _ => [H2Warning.headerTableSize]
    | none => [])
  ++ (match profile.settings.lookup 2 with
    | some enablePush => if enablePush ≠ 0 then [H2Warning.enablePush] else []
    | none => [])
  ++ (match profile.settings.lookup 4 with
    | some _ => [H2Warning.initialWindowSize]
    | none => [])
  ++ (match profile.settings.lookup 5 with
    | some _ => [H2Warning.maxFrameSize]
    | none => [])
  ++ (if profile.windowUpdate ≠ 0 && profile.windowUpdate ≠ 65535 then
        [H2Warning.windowUpdate profile.windowUpdate] else [])
  ++ (if profile.pseudoHeaderOrder ≠ "" && profile.pseudoHeaderOrder ≠ "m,a,s,p" then
        [H2Warning.pseudoHeaderOrder profile.pseudoHeaderOrder] else [])
  ++ (match profile.priority with
    | some _ => [H2Warning.priority]
    | none => [])

/-- Source: `fingerprint.ValidateHTTP2Config` — unknown profiles error,
otherwise the warnings are returned without error (warnings never abort
configuration). -/
def validateHTTP2Config (profileName : String) : Except String (List H2Warning) :=
  match getHTTP2Profile profileName with
  | none => .error profileName
  | some profile => .ok (validateHTTP2Profile profile)

/-! ## Fingerprinted TLS dial/upgrade pipelines
(source: the `fingerprint`-package dialer in
`internal/util/fingerprint` and `ja3.UpgradeConnWithFingerprint` in
`internal/util/ja3/dialer.go`).  The stateful pipelines are embedded as
functions from an explicit environment (the outcomes of the external
I/O operations) to a result together with the trace of I/O actions
performed, in order. -/

/-- The I/O actions of the pipelines: opening the TCP connection,
arming the raw connection's deadline, reading the spec file, driving the
TLS handshake on the raw connection, closing the raw connection. -/
inductive ConnEvent where
  | dialTCP
  | setConnDeadline
  | readSpecFile
  | handshake
  | closeConn
  deriving DecidableEq, Repr

/-- Error classes of the dial/upgrade pipelines, one per return site. -/
inductive DialErr where
  | deadlineExceeded
  | dialFailed
  | setDeadlineFailed
  | specLoadFailed
  | ja3ParseFailed
  | applyPresetFailed
  | handshakeFailed
  deriving DecidableEq, Repr

/-- Outcomes of the external operations the pipelines invoke. -/
structure DialEnv where
  dialOK : Bool
  setDeadlineOK : Bool
  peetFile : Option ClientHelloJSON
  legacyFile : Option ClientHelloSpecFile
  applyPresetOK : Bool
  handshakeOK : Bool
  deriving Repr

/-- Source: `fingerprint.TLSDialerConfig` / `ja3.TLSDialerConfig` (the
TLS-config passthrough fields carry no control flow and are omitted). -/
structure TLSDialerConfig where
  ja3 : Str
  clientHelloSpecFile : Str
  browserProfile : String
  serverName : Str
  alpnProtocols : List Str
  deriving Repr

/-- The shared ClientHello-source selection of all three pipelines:
JSON spec file (primary then fallback schema) > JA3 string > browser
profile (catalog JA3, else the built-in ClientHelloID, i.e. no custom
spec) > default built-in.  Returns the optional custom spec and the
file-reading trace. -/
def selectSpecSource (env : DialEnv) (config : TLSDialerConfig) :
    Except DialErr (Option ClientHelloSpec) × List ConnEvent :=
  if config.clientHelloSpecFile ≠ [] then
    match env.peetFile with
    | some chJSON => (.ok (some (buildClientHelloSpecFromJSON chJSON)), [.readSpecFile])
    | none =>
      match env.legacyFile with
      | some specFile =>
        (.ok (some (buildClientHelloSpecFromFile specFile config.serverName)),
          [.readSpecFile, .readSpecFile])
      | none => (.error .specLoadFailed, [.readSpecFile, .readSpecFile])
  else if config.ja3 ≠ [] then
    match parseJA3 config.ja3 with
    | some ja3Data => (.ok (some (buildClientHelloSpecFromJA3 ja3Data config.serverName)), [])
    | none => (.error .ja3ParseFailed, [])
  else if config.browserProfile ≠ "" then
    let ja3String := getBrowserJA3 config.browserProfile
    if ja3String ≠ "" then
      match parseJA3 ja3String.toList with
      | some ja3Data => (.ok (some (buildClientHelloSpecFromJA3 ja3Data config.serverName)), [])
      | none => (.error .ja3ParseFailed, [])
    else (.ok none, [])
  else (.ok none, [])

/-- The tail shared by the pipelines once a connection is in hand:
apply the custom spec if any, then drive the handshake.  `closeOnErr`
distinguishes dial (which closes the connection it opened on every
failure) from upgrade (which never closes the caller's stream). -/
def specAndHandshake (env : DialEnv) (config : TLSDialerConfig)
    (acc : List ConnEvent) (closeOnErr : Bool) : Except DialErr Unit × List ConnEvent :=
  let closeTail : List ConnEvent := if closeOnErr then [.closeConn] else []
  match selectSpecSource env config with
  | (.error e, evs) => (.error e, acc ++ evs ++ closeTail)
  | (.ok optSpec, evs) =>
    let acc := acc ++ evs
    let applyFails := optSpec.isSome && !env.applyPresetOK
    if applyFails then (.error .applyPresetFailed, acc ++ closeTail)
    else if env.handshakeOK then (.ok (), acc ++ [.handshake])
    else (.error .handshakeFailed, acc ++ [.handshake] ++ closeTail)

/-- Source: `fingerprint.DialTLSWithFingerprint` — deadline precheck
before any I/O, TCP dial, deadline arming, then the shared tail. -/
def fpDialTLSWithFingerprint (env : DialEnv) (hasDeadline : Bool) (now deadline : Nat)
    (config : TLSDialerConfig) : Except DialErr Unit × List ConnEvent :=
  if hasDeadline && deadline ≤ now then (.error .deadlineExceeded, [])
  else if !env.dialOK then (.error .dialFailed, [.dialTCP])
  else if hasDeadline && !env.setDeadlineOK then
    (.error .setDeadlineFailed, [.dialTCP, .setConnDeadline, .closeConn])
  else
    specAndHandshake env config
      ([ConnEvent.dialTCP] ++ if hasDeadline then [ConnEvent.setConnDeadline] else []) true

/-- Source: `fingerprint.UpgradeConnWithFingerprint` — deadline precheck
before touching the caller's raw stream, deadline arming, then the
shared tail (no closing of the caller's stream). -/
def fpUpgradeConnWithFingerprint (env : DialEnv) (hasDeadline : Bool) (now deadline : Nat)
    (config : TLSDialerConfig) : Except DialErr Unit × List ConnEvent :=
  if hasDeadline && deadline ≤ now then (.error .deadlineExceeded, [])
  else if hasDeadline && !env.setDeadlineOK then
    (.error .setDeadlineFailed, [.setConnDeadline])
  else
    specAndHandshake env config
      (if hasDeadline then [ConnEvent.setConnDeadline] else []) false

/-- Source: `ja3.UpgradeConnWithFingerprint` — no deadline precheck and
no deadline arming: the pipeline goes straight to spec selection and the
handshake on the caller's raw stream, for any deadline. -/
def ja3UpgradeConnWithFingerprint (env : DialEnv) (_hasDeadline : Bool) (_now _deadline : Nat)
    (config : TLSDialerConfig) : Except DialErr Unit × List ConnEvent :=
  specAndHandshake env config [] false

/-! ## JA4 string parsing (source: `ja3.ParseJA4String`) -/

/-- Outcome of `ParseJA4String`, with Go's runtime slice-bounds panic as
an explicit result. -/
inductive ParseJA4Outcome where
  | panicOutOfRange
  | invalid
  | ok (fp : JA4Fingerprint)
  deriving DecidableEq, Repr

/-- Embedding of `ja3.ParseJA4String`.  The Go source guards
`len(partA) < 7` and then slices `partA[6:8]`, which panics with a
slice-bounds error whenever `len(partA) = 7`; the model makes that panic
an explicit outcome.  All other indexing (`partA[0]`, `partA[1:3]`,
`partA[3]`, `partA[4:6]`) is in range once the length-7 guard passed. -/
def parseJA4String (s : Str) : ParseJA4Outcome :=
  match splitCh '_' s with
  | [partA, hashB, hashC] =>
    if partA.length < 7 then .invalid
    else if partA.length < 8 then .panicOutOfRange
    else
      let fp : JA4Fingerprint :=
        { protocol := partA.take 1
        , tlsVersionTag := (partA.drop 1).take 2
        , sni := (partA.drop 3).take 1
        , cipherCount := (partA.drop 4).take 2
        , extensionCount := (partA.drop 6).take 2
        , cipherHash := hashB
        , extensionHash := hashC
        , rawCipherSuites := [], rawExtensions := [], hasSNI := false, alpnProtocols := [] }
      if fp.protocol ≠ ['q'] && fp.protocol ≠ ['t'] then .invalid
      else if fp.tlsVersionTag ≠ ['1', '0'] && fp.tlsVersionTag ≠ ['1', '1']
          && fp.tlsVersionTag ≠ ['1', '2'] && fp.tlsVersionTag ≠ ['1', '3']
          && fp.tlsVersionTag ≠ ['0', '0'] then .invalid
      else if fp.sni ≠ ['d'] && fp.sni ≠ ['i'] then .invalid
      else if fp.cipherHash.length ≠ 12 then .invalid
      else if fp.extensionHash.length ≠ 12 then .invalid
      else .ok fp
  | _ => .invalid

/-! ## Formalization helpers for the extension-order claims -/

/-- The constructor kind of an emitted extension. -/
inductive ExtKind where
  | kSNI | kStatusRequest | kGroups | kPoints | kSigAlgs | kALPN | kSCT
  | kPadding | kEMS | kSessionTicket | kVersions | kPSK | kKeyShare
  | kRenegotiation | kGeneric | kNone
  deriving DecidableEq, Repr

def extKind : TLSExtension → ExtKind
  | .sni _ => .kSNI
  | .statusRequest => .kStatusRequest
  | .supportedGroups _ => .kGroups
  | .ecPointFormats _ => .kPoints
  | .signatureAlgorithms _ => .kSigAlgs
  | .alpn _ => .kALPN
  | .sct => .kSCT
  | .padding => .kPadding
  | .extendedMasterSecret => .kEMS
  | .sessionTicket => .kSessionTicket
  | .supportedVersions _ => .kVersions
  | .pskKeyExchangeModes _ => .kPSK
  | .keyShare _ => .kKeyShare
  | .renegotiationInfo => .kRenegotiation
  | .generic _ => .kGeneric

/-- The extension kind a descriptor object's name denotes, following the
fallback builder's dispatch (first matching substring case). -/
def objKindFallback (e : ExtensionJSON) : ExtKind :=
  if containsStr e.name ("server_name").toList then .kSNI
  else if containsStr e.name ("supported_groups").toList then .kGroups
  else if containsStr e.name ("ec_point_formats").toList then .kPoints
  else if containsStr e.name ("signature_algorithms").toList then .kSigAlgs
  else if containsStr e.name ("application_layer_protocol_negotiation").toList then .kALPN
  else if containsStr e.name ("supported_versions").toList then .kVersions
  else if containsStr e.name ("key_share").toList then .kKeyShare
  else if containsStr e.name ("padding").toList then .kPadding
  else if containsStr e.name ("session_ticket").toList then .kSessionTicket
  else if containsStr e.name ("extended_master_secret").toList then .kEMS
  else if containsStr e.name ("status_request").toList then .kStatusRequest
  else if containsStr e.name ("psk_key_exchange_modes").toList then .kPSK
  else if containsStr e.name ("signed_certificate_timestamp").toList then .kSCT
  else if containsStr e.name ("renegotiation_info").toList then .kRenegotiation
  else .kNone

/-- The extensions a single object contributes inside the primary
builder's loop, given the curve ids accumulated so far. -/
def primaryEmit (curves : List Nat) (e : ExtensionJSON) : List TLSExtension :=
  if containsStr e.name ("server_name").toList then
    if e.serverName ≠ [] then [.sni e.serverName] else []
  else if containsStr e.name ("supported_groups").toList then
    [.supportedGroups (curves ++
      (e.supportedGroups.filterMap fun g =>
        let id := parseSupportedGroup g
        if id ≠ 0 then some id else none))]
  else if containsStr e.name ("ec_point_formats").toList then
    [.ecPointFormats (e.ellipticCurvesPointFormats.filterMap fun pf =>
      let v := parsePointFormat pf
      if v ≠ 255 then some v else none)]
  else if containsStr e.name ("application_layer_protocol_negotiation").toList then
    [.alpn e.protocols]
  else if containsStr e.name ("signature_algorithms").toList then
    [.signatureAlgorithms (e.signatureAlgorithms.filterMap fun a =>
      let v := parseSignatureAlgorithm a
      if v ≠ 0 then some v else none)]
  else if containsStr e.name ("supported_versions").toList then
    [.supportedVersions (e.versions.filterMap fun v =>
      let id := parseTLSVersionName v
      if id ≠ 0 then some id else none)]
  else if containsStr e.name ("key_share").toList then
    if curves ≠ [] then [.keyShare []] else []
  else if containsStr e.name ("psk_key_exchange_modes").toList then
    [.pskKeyExchangeModes [1]]
  else if containsStr e.name ("session_ticket").toList then
    [.sessionTicket]
  else if containsStr e.name ("status_request").toList then
    [.statusRequest]
  else if containsStr e.name ("signed_certificate_timestamp").toList then
    [.sct]
  else if containsStr e.name ("extended_master_secret").toList then
    [.extendedMasterSecret]
  else if containsStr e.name ("renegotiation_info").toList
      || containsStr e.name ("extensionRenegotiationInfo").toList then
    [.renegotiationInfo]
  else if containsStr e.name ("padding").toList then
    if e.paddingDataLength > 0 then [.padding] else []
  else []

/-- How one object updates the primary builder's accumulated curves. -/
def primaryCurvesUpd (curves : List Nat) (e : ExtensionJSON) : List Nat :=
  if containsStr e.name ("server_name").toList then curves
  else if containsStr e.name ("supported_groups").toList then
    curves ++ (e.supportedGroups.filterMap fun g =>
      let id := parseSupportedGroup g
      if id ≠ 0 then some id else none)
  else curves

/-- Per-object emissions of the primary builder, in array order, with
the curve accumulator threaded left to right. -/
def primaryEmitList (curves : List Nat) : List ExtensionJSON → List TLSExtension
  | [] => []
  | e :: rest => primaryEmit curves e ++ primaryEmitList (primaryCurvesUpd curves e) rest

/-- The extensions a single object contributes inside the fallback
builder's loop (the collecting cases contribute nothing there). -/
def fallbackLoopEmit (serverName : Str) (e : ExtensionJSON) : List TLSExtension :=
  if containsStr e.name ("server_name").toList then
    if serverName ≠ [] then [.sni serverName] else []
  else if containsStr e.name ("supported_groups").toList then []
  else if containsStr e.name ("ec_point_formats").toList then []
  else if containsStr e.name ("signature_algorithms").toList then []
  else if containsStr e.name ("application_layer_protocol_negotiation").toList then []
  else if containsStr e.name ("supported_versions").toList then []
  else if containsStr e.name ("key_share").toList then []
  else if containsStr e.name ("padding").toList then
    if e.paddingDataLength > 0 then [.padding] else []
  else if containsStr e.name ("session_ticket").toList then [.sessionTicket]
  else if containsStr e.name ("extended_master_secret").toList then [.extendedMasterSecret]
  else if containsStr e.name ("status_request").toList then [.statusRequest]
  else if containsStr e.name ("psk_key_exchange_modes").toList then [.pskKeyExchangeModes [1]]
  else if containsStr e.name ("signed_certificate_timestamp").toList then [.sct]
  else if containsStr e.name ("renegotiation_info").toList then [.renegotiationInfo]
  else []

/-! ## Spec-side JA4 hash definitions (the wording of §3/§4.3) -/

/-- Spec wording for part b: first 12 hex chars of SHA-256 over the
cipher ids in original order, `%04x`-formatted and comma-joined. -/
def ja4CipherHashSpec (ciphers : List Nat) : Str :=
  (hexEncode (sha256 (strBytes (joinCh ',' (ciphers.map hex4))))).take 12

/-- Spec wording for part c: ids 0 and 16 removed, sorted ascending,
`%04x`-formatted, comma-joined, SHA-256, first 12 hex chars. -/
def ja4ExtensionHashSpec (extensions : List Nat) : Str :=
  (hexEncode (sha256 (strBytes (joinCh ','
    (((extensions.filter fun e => e ≠ 0 && e ≠ 16).mergeSort (· ≤ ·)).map hex4))))).take 12

/-! # Theorems -/

/-! ## Numeral and field roundtrip lemmas -/

theorem digitVal_digitChar {d : Nat} (h : d < 10) :
    digitVal (Nat.digitChar d) = d ∧ isDigitCh (Nat.digitChar d) = true := by
  interval_cases d <;> exact ⟨rfl, rfl⟩

theorem valDig_append_single (xs : List Nat) (d : Nat) :
    (xs ++ [d]).foldl (fun a x => a * 10 + x) 0
      = xs.foldl (fun a x => a * 10 + x) 0 * 10 + d := by
  rw [List.foldl_append]
  rfl

theorem toDigitsAux10_spec :
    ∀ fuel n, n < fuel →
      (∀ d ∈ toDigitsAux 10 fuel n, d < 10) ∧ toDigitsAux 10 fuel n ≠ []
        ∧ (toDigitsAux 10 fuel n).foldl (fun a x => a * 10 + x) 0 = n := by
  intro fuel
  induction fuel with
  | zero => intro n hn; omega
  | succ fuel ih =>
    intro n hn
    by_cases hsmall : n < 10
    · refine ⟨?_, ?_, ?_⟩ <;> simp [toDigitsAux, hsmall]
    · have hdiv : n / 10 < fuel := by
        have h10 : 0 < n := by omega
        have := Nat.div_lt_self h10 (by norm_num : 1 < 10)
        omega
      obtain ⟨hall, hne, hval⟩ := ih (n / 10) hdiv
      have hunfold : toDigitsAux 10 (fuel + 1) n
          = toDigitsAux 10 fuel (n / 10) ++ [n % 10] := by
        simp [toDigitsAux, hsmall]
      refine ⟨?_, ?_, ?_⟩
      · intro d hd
        rw [hunfold] at hd
        rcases List.mem_append.mp hd with h | h
        · exact hall d h
        · simp at h; omega
      · rw [hunfold]; simp
      · rw [hunfold, valDig_append_single, hval]
        omega

theorem strVal_map_digitChar (l : List Nat) (h : ∀ d ∈ l, d < 10) :
    strVal (l.map Nat.digitChar) = l.foldl (fun a x => a * 10 + x) 0 := by
  suffices haux : ∀ acc, (l.map Nat.digitChar).foldl (fun a c => a * 10 + digitVal c) acc
      = l.foldl (fun a x => a * 10 + x) acc by
    exact haux 0
  induction l with
  | nil => intro acc; rfl
  | cons d rest ih =>
    intro acc
    have hd : d < 10 := h d (by simp)
    simp only [List.map_cons, List.foldl_cons, (digitVal_digitChar hd).1]
    exact ih (fun x hx => h x (by simp [hx])) _

theorem numStr_spec (n : Nat) :
    numStr n ≠ [] ∧ (numStr n).all isDigitCh = true ∧ strVal (numStr n) = n := by
  have hfuel : n < n + 1 := Nat.lt_succ_self n
  obtain ⟨hall, hne, hval⟩ := toDigitsAux10_spec (n + 1) n hfuel
  refine ⟨by simpa [numStr] using hne, ?_, ?_⟩
  · rw [List.all_eq_true]
    intro c hc
    rw [numStr, List.mem_map] at hc
    obtain ⟨d, hd, rfl⟩ := hc
    exact (digitVal_digitChar (hall d hd)).2
  · rw [numStr, strVal_map_digitChar _ hall, hval]

theorem goParseUint_numStr {bits n : Nat} (h : n < 2 ^ bits) :
    goParseUint bits (numStr n) = some n := by
  obtain ⟨hne, hdig, hval⟩ := numStr_spec n
  simp [goParseUint, hne, hdig, hval, h]

theorem mem_numStr_isDigit {c : Char} {n : Nat} (h : c ∈ numStr n) :
    isDigitCh c = true := by
  have := (numStr_spec n).2.1
  rw [List.all_eq_true] at this
  exact this c h

theorem comma_not_mem_numStr (n : Nat) : ',' ∉ numStr n := by
  intro h
  have := mem_numStr_isDigit h
  simp [isDigitCh] at this

theorem dash_not_mem_numStr (n : Nat) : '-' ∉ numStr n := by
  intro h
  have := mem_numStr_isDigit h
  simp [isDigitCh] at this

theorem splitCh_joinCh {sep : Char} {parts : List Str}
    (hne : parts ≠ []) (hsep : ∀ p ∈ parts, sep ∉ p) :
    splitCh sep (joinCh sep parts) = parts := by
  simpa [splitCh, joinCh] using List.splitOn_intercalate parts sep hsep hne

theorem joinCh_singleton (sep : Char) (p : Str) : joinCh sep [p] = p := by
  simp [joinCh, List.intercalate]

theorem joinCh_cons₂ (sep : Char) (p q : Str) (qs : List Str) :
    joinCh sep (p :: q :: qs) = p ++ [sep] ++ joinCh sep (q :: qs) := by
  simp [joinCh, List.intercalate, List.intersperse]

theorem mem_joinCh {c : Char} {sep : Char} :
    ∀ {parts : List Str}, c ∈ joinCh sep parts → c = sep ∨ ∃ p ∈ parts, c ∈ p := by
  intro parts
  induction parts with
  | nil => intro h; simp [joinCh, List.intercalate] at h
  | cons p ps ih =>
    intro h
    cases ps with
    | nil =>
      rw [joinCh_singleton] at h
      exact Or.inr ⟨p, by simp, h⟩
    | cons q qs =>
      rw [joinCh_cons₂] at h
      rcases List.mem_append.mp h with h | h
      · rcases List.mem_append.mp h with h | h
        · exact Or.inr ⟨p, by simp, h⟩
        · simp at h; exact Or.inl h
      · rcases ih h with h | ⟨r, hr, hcr⟩
        · exact Or.inl h
        · exact Or.inr ⟨r, by simp [hr], hcr⟩

theorem joinCh_cons_ne_nil {sep : Char} {p : Str} {ps : List Str} (h : p ≠ []) :
    joinCh sep (p :: ps) ≠ [] := by
  cases ps with
  | nil => simpa [joinCh_singleton] using h
  | cons q qs =>
    rw [joinCh_cons₂]
    intro hcontra
    rcases List.append_eq_nil.mp hcontra with ⟨h1, _⟩
    rcases List.append_eq_nil.mp h1 with ⟨h2, _⟩
    exact h h2

theorem parseNumList_numStr {bits : Nat} :
    ∀ xs : List Nat, (∀ x ∈ xs, x < 2 ^ bits) →
      parseNumList bits (xs.map numStr) = some xs := by
  intro xs
  induction xs with
  | nil => intro _; rfl
  | cons x rest ih =>
    intro h
    have hx : goParseUint bits (numStr x) = some x := goParseUint_numStr (h x (by simp))
    simp [parseNumList, hx, ih (fun y hy => h y (by simp [hy]))]

theorem parseJA3Field_roundtrip {bits : Nat} {xs : List Nat}
    (h : ∀ x ∈ xs, x < 2 ^ bits) :
    parseJA3Field bits (joinCh '-' (xs.map numStr)) = some xs := by
  cases xs with
  | nil => rfl
  | cons x rest =>
    have hne : joinCh '-' ((x :: rest).map numStr) ≠ [] :=
      joinCh_cons_ne_nil (numStr_spec x).1
    have hsplit : splitCh '-' (joinCh '-' ((x :: rest).map numStr))
        = (x :: rest).map numStr := by
      refine splitCh_joinCh (by simp) ?_
      intro p hp
      rw [List.mem_map] at hp
      obtain ⟨y, _, rfl⟩ := hp
      exact dash_not_mem_numStr y
    rw [parseJA3Field, if_neg hne, hsplit]
    exact parseNumList_numStr _ h

theorem not_comma_mem_joinCh_dash (xs : List Nat) :
    ',' ∉ joinCh '-' (xs.map numStr) := by
  intro h
  rcases mem_joinCh h with h | ⟨p, hp, hmem⟩
  · simp at h
  · rw [List.mem_map] at hp
    obtain ⟨y, _, rfl⟩ := hp
    exact comma_not_mem_numStr y hmem

theorem parseJA3_serializeJA3 (d : JA3Data) (hv : ja3Valid d = true) :
    parseJA3 (serializeJA3 d) = some d := by
  rw [ja3Valid] at hv
  simp only [Bool.and_eq_true, decide_eq_true_eq, List.all_eq_true] at hv
  obtain ⟨⟨⟨⟨h0, h1⟩, h2⟩, h3⟩, h4⟩ := hv
  have hb : (65536 : Nat) = 2 ^ 16 := by norm_num
  have hb8 : (256 : Nat) = 2 ^ 8 := by norm_num
  have hsplit : splitCh ',' (serializeJA3 d) =
      [ numStr d.version
      , joinCh '-' (d.cipherSuites.map numStr)
      , joinCh '-' (d.extensions.map numStr)
      , joinCh '-' (d.supportedGroups.map numStr)
      , joinCh '-' (d.ellipticCurvePoint.map numStr) ] := by
    refine splitCh_joinCh (by simp) ?_
    intro p hp
    simp only [List.mem_cons, List.not_mem_nil, or_false] at hp
    rcases hp with rfl | rfl | rfl | rfl | rfl
    · exact comma_not_mem_numStr d.version
    · exact not_comma_mem_joinCh_dash d.cipherSuites
    · exact not_comma_mem_joinCh_dash d.extensions
    · exact not_comma_mem_joinCh_dash d.supportedGroups
    · exact not_comma_mem_joinCh_dash d.ellipticCurvePoint
  have hver : goParseUint 16 (numStr d.version) = some d.version :=
    goParseUint_numStr (by omega)
  have hc : parseJA3Field 16 (joinCh '-' (d.cipherSuites.map numStr))
      = some d.cipherSuites :=
    parseJA3Field_roundtrip fun x hx => by have := h1 x hx; omega
  have he : parseJA3Field 16 (joinCh '-' (d.extensions.map numStr))
      = some d.extensions :=
    parseJA3Field_roundtrip fun x hx => by have := h2 x hx; omega
  have hg : parseJA3Field 16 (joinCh '-' (d.supportedGroups.map numStr))
      = some d.supportedGroups :=
    parseJA3Field_roundtrip fun x hx => by have := h3 x hx; omega
  have hpt : parseJA3Field 8 (joinCh '-' (d.ellipticCurvePoint.map numStr))
      = some d.ellipticCurvePoint :=
    parseJA3Field_roundtrip fun x hx => by have := h4 x hx; omega
  unfold parseJA3
  rw [hsplit]
  simp [(numStr_spec d.version).1, hver, hc, he, hg, hpt]

/-- C7: For every well-formed JA3 value, parsing its canonical
serialization returns it (so serialize ∘ parse is the identity on
canonical strings), and every browser-catalog profile's JA3 string
parses and re-serializes byte-identically. -/
theorem ja3_roundtrip_law :
    (∀ d : JA3Data, ja3Valid d = true → parseJA3 (serializeJA3 d) = some d)
    ∧ (∀ x : Str, (∃ d, ja3Valid d = true ∧ serializeJA3 d = x) →
        Option.map serializeJA3 (parseJA3 x) = some x)
    ∧ (browserProfilesJA3.all fun p =>
        match parseJA3 p.2.toList with
        | some d => serializeJA3 d == p.2.toList
        | none => false) = true := by
  refine ⟨parseJA3_serializeJA3, ?_, by decide⟩
  rintro x ⟨d, hv, rfl⟩
  rw [parseJA3_serializeJA3 d hv]
  rfl

/-- Witness for C7 at a concrete well-formed JA3 value. -/
theorem ja3_roundtrip_law_witness :
    parseJA3 (serializeJA3 ⟨771, [4865, 4866], [0, 23], [29], [0]⟩)
      = some ⟨771, [4865, 4866], [0, 23], [29], [0]⟩ :=
  ja3_roundtrip_law.1 ⟨771, [4865, 4866], [0, 23], [29], [0]⟩ (by decide)

/-! ## JA4 part a and hash theorems -/

theorem formatTLSVersion_length (v : Nat) : (formatTLSVersion v).length = 2 := by
  unfold formatTLSVersion
  split_ifs <;> rfl

theorem determineSNIType_length (s : Str) : (determineSNIType s).length = 1 := by
  unfold determineSNIType
  split_ifs <;> rfl

theorem hex2_length : ∀ n < 256, (hex2 n).length = 2 := by decide

/-- C1 (corrected): part a of a generated JA4 is the 8-character
concatenation of the protocol char, the two-char TLS-version tag, the
SNI char and the two clamped two-hex-digit counts — with no ALPN tag —
and on the reference summary (TCP, TLS 1.3, SNI example.com, 4 ciphers,
8 extensions) it equals "t13d0408". -/
theorem ja4_part_a_structure :
    (∀ data : JA4Data, ja4PartA (generateJA4 data)
        = (if data.isQUIC then ['q'] else ['t'])
          ++ formatTLSVersion data.tlsVersion
          ++ determineSNIType data.serverName
          ++ hex2 (min data.cipherSuites.length 255)
          ++ hex2 (min data.extensions.length 255))
    ∧ (∀ data : JA4Data, (ja4PartA (generateJA4 data)).length = 8)
    ∧ ja4PartA (generateJA4 ⟨false, 0x0304, ("example.com").toList,
        [0x1301, 0x1302, 0x1303, 0xc02f], [0, 10, 11, 13, 16, 23, 43, 51],
        [('h' :: ['2'])], []⟩) = ("t13d0408").toList := by
  refine ⟨fun data => rfl, fun data => ?_, by decide⟩
  have hc : min data.cipherSuites.length 255 < 256 := by omega
  have he : min data.extensions.length 255 < 256 := by omega
  simp only [ja4PartA, generateJA4, List.length_append,
    formatTLSVersion_length, determineSNIType_length,
    hex2_length _ hc, hex2_length _ he]
  by_cases hq : data.isQUIC <;> simp [hq]

/-- C1 counterexample: the claimed 10-character part a with a trailing
ALPN tag ("t13d0408h2") is not produced; the code emits the 8-character
"t13d0408" for the reference summary. -/
theorem ja4_part_a_no_alpn_tag :
    ja4PartA (generateJA4 ⟨false, 0x0304, ("example.com").toList,
        [0x1301, 0x1302, 0x1303, 0xc02f], [0, 10, 11, 13, 16, 23, 43, 51],
        [('h' :: ['2'])], []⟩) ≠ ("t13d0408h2").toList
    ∧ (ja4PartA (generateJA4 ⟨false, 0x0304, ("example.com").toList,
        [0x1301, 0x1302, 0x1303, 0xc02f], [0, 10, 11, 13, 16, 23, 43, 51],
        [('h' :: ['2'])], []⟩)).length ≠ 10 := by
  decide

/-- C2 (code bug): an input whose part a has length exactly 7 passes the
source's `len(partA) < 7` guard and then panics at `partA[6:8]`. -/
theorem parseJA4String_len7_panics :
    parseJA4String (("t13d040_aaaaaaaaaaaa_bbbbbbbbbbbb").toList)
      = ParseJA4Outcome.panicOutOfRange := by
  decide

/-- C8: the JA4 cipher hash is the first 12 hex chars of SHA-256 over
the `%04x`-formatted, comma-joined cipher ids in original order; the
extension hash is the same over the extension ids with 0 and 16 removed
and the rest sorted ascending; empty inputs hash the empty byte string. -/
theorem ja4_hashes_match_spec :
    (∀ cs : List Nat, generateCipherHash cs = ja4CipherHashSpec cs)
    ∧ (∀ es : List Nat, generateExtensionHash es = ja4ExtensionHashSpec es)
    ∧ generateCipherHash [] = (hexEncode (sha256 [])).take 12
    ∧ (∀ es : List Nat, (es.filter fun e => e ≠ 0 && e ≠ 16) = [] →
        generateExtensionHash es = (hexEncode (sha256 [])).take 12) := by
  have hcip : ∀ cs : List Nat, generateCipherHash cs = ja4CipherHashSpec cs := by
    intro cs
    by_cases h : cs = []
    · subst h; rfl
    · simp [generateCipherHash, ja4CipherHashSpec, h]
  have hext : ∀ es : List Nat, generateExtensionHash es = ja4ExtensionHashSpec es := by
    intro es
    rw [generateExtensionHash, ja4ExtensionHashSpec]
    by_cases h : es = []
    · subst h
      rw [if_pos rfl, List.filter_nil, List.mergeSort_nil]
      rfl
    · rw [if_neg h]
      by_cases hf : (es.filter fun e => e ≠ 0 && e ≠ 16) = []
      · rw [if_pos hf, hf, List.mergeSort_nil]
        rfl
      · rw [if_neg hf]
  refine ⟨hcip, hext, rfl, ?_⟩
  intro es hf
  rw [generateExtensionHash]
  by_cases h : es = []
  · rw [if_pos h]
  · rw [if_neg h, if_pos hf]

/-- Witness for C8's empty-filtered-list conjunct at `[0, 16]`. -/
theorem ja4_hashes_match_spec_witness :
    generateExtensionHash [0, 16] = (hexEncode (sha256 [])).take 12 :=
  ja4_hashes_match_spec.2.2.2 [0, 16] (by decide)

/-! ## JA3 spec-builder theorems -/

theorem foldl_append_singleton {α β : Type} (f : α → β) (l : List α) :
    ∀ acc : List β, l.foldl (fun a x => a ++ [f x]) acc = acc ++ l.map f := by
  induction l with
  | nil => intro acc; simp
  | cons x rest ih =>
    intro acc
    simp [ih, List.append_assoc]

theorem buildJA3_exts_eq_map (data : JA3Data) (serverName : Str) :
    (buildClientHelloSpecFromJA3 data serverName).extensions
      = data.extensions.map fun extID => buildExtension extID data serverName := by
  simp [buildClientHelloSpecFromJA3, foldl_append_singleton]

theorem buildExtension_unrecognized {extID : Nat} (data : JA3Data) (serverName : Str)
    (h : extID ∉ recognizedJA3ExtensionIDs) :
    buildExtension extID data serverName = .generic extID := by
  simp only [recognizedJA3ExtensionIDs, List.mem_cons, List.not_mem_nil, or_false,
    not_or] at h
  obtain ⟨h0, h5, h10, h11, h13, h16, h18, h21, h23, h27, h35, h43, h45, h51, h65281⟩ := h
  unfold buildExtension
  rw [if_neg h0, if_neg h5, if_neg h10, if_neg h11, if_neg h13, if_neg h16, if_neg h18,
    if_neg h21, if_neg h23, if_neg h27, if_neg h35, if_neg h43, if_neg h45, if_neg h51,
    if_neg h65281]

theorem buildExtension_eq_sni {extID : Nat} {data : JA3Data} {serverName s : Str}
    (h : buildExtension extID data serverName = .sni s) :
    extID = 0 ∧ s = serverName ∧ serverName ≠ [] := by
  by_cases h0 : extID = 0
  · subst h0
    rw [buildExtension, if_pos rfl] at h
    by_cases hsn : serverName ≠ []
    · rw [if_pos hsn] at h
      injection h with hh
      exact ⟨rfl, hh.symm, hsn⟩
    · rw [if_neg hsn] at h
      exact TLSExtension.noConfusion h
  · exfalso
    rw [buildExtension, if_neg h0] at h
    by_cases h5 : extID = 5
    · rw [if_pos h5] at h; exact TLSExtension.noConfusion h
    rw [if_neg h5] at h
    by_cases h10 : extID = 10
    · rw [if_pos h10] at h
      by_cases hg10 : data.supportedGroups ≠ []
      · rw [if_pos hg10] at h; exact TLSExtension.noConfusion h
      · rw [if_neg hg10] at h; exact TLSExtension.noConfusion h
    rw [if_neg h10] at h
    by_cases h11 : extID = 11
    · rw [if_pos h11] at h
      by_cases hg11 : data.ellipticCurvePoint ≠ []
      · rw [if_pos hg11] at h; exact TLSExtension.noConfusion h
      · rw [if_neg hg11] at h; exact TLSExtension.noConfusion h
    rw [if_neg h11] at h
    by_cases h13 : extID = 13
    · rw [if_pos h13] at h; exact TLSExtension.noConfusion h
    rw [if_neg h13] at h
    by_cases h16 : extID = 16
    · rw [if_pos h16] at h; exact TLSExtension.noConfusion h
    rw [if_neg h16] at h
    by_cases h18 : extID = 18
    · rw [if_pos h18] at h; exact TLSExtension.noConfusion h
    rw [if_neg h18] at h
    by_cases h21 : extID = 21
    · rw [if_pos h21] at h; exact TLSExtension.noConfusion h
    rw [if_neg h21] at h
    by_cases h23 : extID = 23
    · rw [if_pos h23] at h; exact TLSExtension.noConfusion h
    rw [if_neg h23] at h
    by_cases h27 : extID = 27
    · rw [if_pos h27] at h; exact TLSExtension.noConfusion h
    rw [if_neg h27] at h
    by_cases h35 : extID = 35
    · rw [if_pos h35] at h; exact TLSExtension.noConfusion h
    rw [if_neg h35] at h
    by_cases h43 : extID = 43
    · rw [if_pos h43] at h; exact TLSExtension.noConfusion h
    rw [if_neg h43] at h
    by_cases h45 : extID = 45
    · rw [if_pos h45] at h; exact TLSExtension.noConfusion h
    rw [if_neg h45] at h
    by_cases h51 : extID = 51
    · rw [if_pos h51] at h; exact TLSExtension.noConfusion h
    rw [if_neg h51] at h
    by_cases h65281 : extID = 65281
    · rw [if_pos h65281] at h; exact TLSExtension.noConfusion h
    rw [if_neg h65281] at h
    exact TLSExtension.noConfusion h

/-- C10: building from any parsed JA3 always yields a spec whose cipher
sequence is the JA3's cipher field verbatim, whose min and max TLS
versions both equal the JA3's version, and whose extension list is the
image of the JA3's extension ids in order (one extension per id, so the
counts agree), with unrecognized ids emitted as Generic(id). -/
theorem buildFromJA3_structure :
    ∀ (data : JA3Data) (serverName : Str),
      (buildClientHelloSpecFromJA3 data serverName).cipherSuites = data.cipherSuites
      ∧ (buildClientHelloSpecFromJA3 data serverName).tlsVersMin = data.version
      ∧ (buildClientHelloSpecFromJA3 data serverName).tlsVersMax = data.version
      ∧ (buildClientHelloSpecFromJA3 data serverName).extensions
          = (data.extensions.map fun extID => buildExtension extID data serverName)
      ∧ (buildClientHelloSpecFromJA3 data serverName).extensions.length
          = data.extensions.length
      ∧ (∀ extID, extID ∉ recognizedJA3ExtensionIDs →
          buildExtension extID data serverName = .generic extID) := by
  intro data serverName
  refine ⟨rfl, rfl, rfl, buildJA3_exts_eq_map data serverName, ?_,
    fun extID h => buildExtension_unrecognized data serverName h⟩
  rw [buildJA3_exts_eq_map, List.length_map]

/-- Witness for C10 on a concrete JA3 with the unrecognized id 17513. -/
theorem buildFromJA3_structure_witness :
    (buildClientHelloSpecFromJA3 ⟨771, [4865], [0, 17513], [29], [0]⟩ []).cipherSuites
        = [4865]
    ∧ buildExtension 17513 ⟨771, [4865], [0, 17513], [29], [0]⟩ [] = .generic 17513 :=
  ⟨(buildFromJA3_structure ⟨771, [4865], [0, 17513], [29], [0]⟩ []).1,
    (buildFromJA3_structure ⟨771, [4865], [0, 17513], [29], [0]⟩ []).2.2.2.2.2
      17513 (by decide)⟩

/-- C6: a GREASE id 0x0a0a in the JA3's extension list is emitted as
Generic(0x0a0a) at the same index, and the builder neither sorts nor
reorders the cipher or extension sequences (the ciphers are copied
verbatim and the extensions are a position-preserving map). -/
theorem grease_preserved :
    ∀ (data : JA3Data) (serverName : Str) (i : Nat),
      (buildClientHelloSpecFromJA3 data serverName).cipherSuites = data.cipherSuites
      ∧ (buildClientHelloSpecFromJA3 data serverName).extensions
          = (data.extensions.map fun extID => buildExtension extID data serverName)
      ∧ (i < data.extensions.length → data.extensions.getD i 0 = 0x0a0a →
          (buildClientHelloSpecFromJA3 data serverName).extensions.getD i (.generic 0)
            = .generic 0x0a0a) := by
  intro data serverName i
  refine ⟨rfl, buildJA3_exts_eq_map data serverName, fun hlen hval => ?_⟩
  rw [buildJA3_exts_eq_map]
  have hlen' : i < (data.extensions.map fun extID =>
      buildExtension extID data serverName).length := by simpa using hlen
  rw [List.getD_eq_getElem _ _ hlen', List.getElem_map]
  rw [List.getD_eq_getElem _ _ hlen] at hval
  rw [hval]
  exact buildExtension_unrecognized data serverName (by decide)

/-- Witness for C6 at index 1 of a concrete JA3 extension list. -/
theorem grease_preserved_witness :
    (buildClientHelloSpecFromJA3 ⟨771, [4865], [0, 0x0a0a], [], []⟩ []).extensions.getD 1
        (.generic 0) = .generic 0x0a0a :=
  (grease_preserved ⟨771, [4865], [0, 0x0a0a], [], []⟩ [] 1).2.2 (by decide) (by decide)

/-- C5 (corrected): the typed SNI extension is emitted for id 0 exactly
when the server name is non-empty; with an empty server name, id 0 still
emits an extension — Generic(0) — rather than being dropped. -/
theorem sni_extension_iff :
    ∀ (data : JA3Data) (serverName : Str),
      (serverName ≠ [] → buildExtension 0 data serverName = .sni serverName)
      ∧ (serverName = [] → buildExtension 0 data serverName = .generic 0)
      ∧ ((∃ s, TLSExtension.sni s ∈ (buildClientHelloSpecFromJA3 data serverName).extensions)
          ↔ serverName ≠ [] ∧ 0 ∈ data.extensions) := by
  intro data serverName
  refine ⟨fun h => by simp [buildExtension, h], fun h => by simp [buildExtension, h], ?_⟩
  rw [buildJA3_exts_eq_map]
  constructor
  · rintro ⟨s, hs⟩
    rw [List.mem_map] at hs
    obtain ⟨extID, hmem, heq⟩ := hs
    obtain ⟨rfl, rfl, hne⟩ := buildExtension_eq_sni heq
    exact ⟨hne, hmem⟩
  · rintro ⟨hne, hmem⟩
    exact ⟨serverName, List.mem_map.mpr ⟨0, hmem, by simp [buildExtension, hne]⟩⟩

/-- Witness for C5's amended statement at concrete inputs. -/
theorem sni_extension_iff_witness :
    buildExtension 0 ⟨771, [], [0], [], []⟩ ['a'] = .sni ['a']
    ∧ buildExtension 0 ⟨771, [], [0], [], []⟩ [] = .generic 0
    ∧ (∃ s, TLSExtension.sni s
        ∈ (buildClientHelloSpecFromJA3 ⟨771, [], [0], [], []⟩ ['a']).extensions) :=
  ⟨(sni_extension_iff ⟨771, [], [0], [], []⟩ ['a']).1 (by decide),
    (sni_extension_iff ⟨771, [], [0], [], []⟩ []).2.1 rfl,
    (sni_extension_iff ⟨771, [], [0], [], []⟩ ['a']).2.2.mpr ⟨by decide, by decide⟩⟩

/-- C5 counterexample: with an empty server name, a JA3 listing id 0
still emits an extension for it — Generic(0) — so "no extension for id 0
is emitted" fails. -/
theorem sni_empty_emits_generic :
    (buildClientHelloSpecFromJA3 ⟨771, [], [0], [], []⟩ []).extensions = [.generic 0]
    ∧ (buildClientHelloSpecFromJA3 ⟨771, [], [0], [], []⟩ []).extensions ≠ [] := by
  decide

/-! ## HTTP/2 validation theorems -/

/-- C9 counterexample: validate("chrome_120") emits no MAX_FRAME_SIZE
warning at all (chrome_120's SETTINGS carry no key 5), so "exactly one
warning for each of HEADER_TABLE_SIZE, INITIAL_WINDOW_SIZE,
MAX_FRAME_SIZE, non-default WINDOW_UPDATE" fails on the third item. -/
theorem chrome120_no_max_frame_size_warning :
    validateHTTP2Config ("chrome_120")
        = .ok [H2Warning.headerTableSize, H2Warning.initialWindowSize,
               H2Warning.windowUpdate 15663105, H2Warning.priority]
    ∧ List.count H2Warning.maxFrameSize
        [H2Warning.headerTableSize, H2Warning.initialWindowSize,
         H2Warning.windowUpdate 15663105, H2Warning.priority] = 0 :=
  ⟨rfl, by decide⟩

/-- C9 (corrected): for chrome_120, validate returns — without error, so
warnings never abort configuration — exactly one warning each for
HEADER_TABLE_SIZE, INITIAL_WINDOW_SIZE and the non-default
WINDOW_UPDATE, plus one PRIORITY warning, and none for MAX_FRAME_SIZE
(no SETTINGS key 5 in the profile), ENABLE_PUSH (value 0) or the
pseudo-header order (it is the default m,a,s,p). -/
theorem chrome120_validate_warnings :
    ∃ ws, validateHTTP2Config ("chrome_120") = .ok ws
      ∧ ws.count H2Warning.headerTableSize = 1
      ∧ ws.count H2Warning.initialWindowSize = 1
      ∧ ws.count (H2Warning.windowUpdate 15663105) = 1
      ∧ ws.count H2Warning.priority = 1
      ∧ ws.count H2Warning.maxFrameSize = 0
      ∧ ws.count H2Warning.enablePush = 0
      ∧ (∀ o, ws.count (H2Warning.pseudoHeaderOrder o) = 0)
      ∧ ws.length = 4 := by
  refine ⟨[H2Warning.headerTableSize, H2Warning.initialWindowSize,
    H2Warning.windowUpdate 15663105, H2Warning.priority],
    rfl, by decide, by decide, by decide, by decide, by decide, by decide, ?_, by decide⟩
  intro o
  simp [List.count_cons]

/-! ## Deadline precheck theorems -/

/-- C4 (corrected, fingerprint-package part): both fingerprint-package
entry points return DeadlineExceeded with an empty I/O trace when the
caller's deadline is already in the past — no connection is opened, no
file is read, and the raw stream is never touched. -/
theorem fp_deadline_precheck :
    ∀ (env : DialEnv) (config : TLSDialerConfig) (now deadline : Nat),
      deadline ≤ now →
        fpDialTLSWithFingerprint env true now deadline config
            = (.error .deadlineExceeded, [])
        ∧ fpUpgradeConnWithFingerprint env true now deadline config
            = (.error .deadlineExceeded, []) := by
  intro env config now deadline h
  constructor
  · simp [fpDialTLSWithFingerprint, h]
  · simp [fpUpgradeConnWithFingerprint, h]

/-- Witness for C4's amended statement at a concrete expired deadline. -/
theorem fp_deadline_precheck_witness :
    fpDialTLSWithFingerprint ⟨true, true, none, none, true, true⟩ true 1 0
        ⟨[], [], "", [], []⟩ = (.error .deadlineExceeded, [])
    ∧ fpUpgradeConnWithFingerprint ⟨true, true, none, none, true, true⟩ true 1 0
        ⟨[], [], "", [], []⟩ = (.error .deadlineExceeded, []) :=
  fp_deadline_precheck ⟨true, true, none, none, true, true⟩ ⟨[], [], "", [], []⟩ 1 0
    (by decide)

/-- C4 counterexample: the ja3-package upgrade entry point has no
deadline precheck — with a deadline already one unit in the past it
still proceeds to the TLS handshake on the caller's raw stream (the
I/O trace is non-empty and contains the handshake), and it does not
return DeadlineExceeded. -/
theorem ja3_upgrade_no_deadline_precheck :
    ja3UpgradeConnWithFingerprint ⟨true, true, none, none, true, true⟩ true 1 0
        ⟨("771,4865,0,29,0").toList, [], "", [], []⟩
      = (Except.ok (), [ConnEvent.handshake])
    ∧ [ConnEvent.handshake] ≠ ([] : List ConnEvent)
    ∧ (Except.ok () : Except DialErr Unit) ≠ Except.error DialErr.deadlineExceeded :=
  ⟨rfl, by decide, fun h => Except.noConfusion h⟩

/-! ## Extension-order theorems for the JSON builders -/

theorem primaryStep_exts (st : PrimaryLoopState) (e : ExtensionJSON) :
    (primaryStep st e).exts = st.exts ++ primaryEmit st.curves e := by
  unfold primaryStep primaryEmit
  by_cases c1 : (containsStr e.name ("server_name").toList) = true
  · try simp only [c1, eq_self_iff_true, ite_true, List.append_nil]
    try rfl
    first
    | done
    | (by_cases d1 : e.serverName ≠ []
       · first
         | (rw [if_pos d1, if_pos d1]; first | rfl | exact (List.append_nil _).symm | skip)
         | (rw [if_pos d1]; first | rfl | exact (List.append_nil _).symm | skip)
       · first
         | (rw [if_neg d1, if_neg d1]; first | rfl | exact (List.append_nil _).symm | skip)
         | (rw [if_neg d1]; first | rfl | exact (List.append_nil _).symm | skip))
  · try simp only [(Bool.not_eq_true _).mp c1, Bool.false_eq_true, ite_false, List.append_nil]
    by_cases c2 : (containsStr e.name ("supported_groups").toList) = true
    · try simp only [c2, eq_self_iff_true, ite_true, List.append_nil]
      try rfl
      try exact (List.append_nil _).symm
    · try simp only [(Bool.not_eq_true _).mp c2, Bool.false_eq_true, ite_false, List.append_nil]
      by_cases c3 : (containsStr e.name ("ec_point_formats").toList) = true
      · try simp only [c3, eq_self_iff_true, ite_true, List.append_nil]
        try rfl
        try exact (List.append_nil _).symm
      · try simp only [(Bool.not_eq_true _).mp c3, Bool.false_eq_true, ite_false, List.append_nil]
        by_cases c4 : (containsStr e.name ("application_layer_protocol_negotiation").toList) = true
        · try simp only [c4, eq_self_iff_true, ite_true, List.append_nil]
          try rfl
          try exact (List.append_nil _).symm
        · try simp only [(Bool.not_eq_true _).mp c4, Bool.false_eq_true, ite_false, List.append_nil]
          by_cases c5 : (containsStr e.name ("signature_algorithms").toList) = true
          · try simp only [c5, eq_self_iff_true, ite_true, List.append_nil]
            try rfl
            try exact (List.append_nil _).symm
          · try simp only [(Bool.not_eq_true _).mp c5, Bool.false_eq_true, ite_false, List.append_nil]
            by_cases c6 : (containsStr e.name ("supported_versions").toList) = true
            · try simp only [c6, eq_self_iff_true, ite_true, List.append_nil]
              try rfl
              try exact (List.append_nil _).symm
            · try simp only [(Bool.not_eq_true _).mp c6, Bool.false_eq_true, ite_false, List.append_nil]
              by_cases c7 : (containsStr e.name ("key_share").toList) = true
              · try simp only [c7, eq_self_iff_true, ite_true, List.append_nil]
                try rfl
                first
                | done
                | (by_cases d7 : st.curves ≠ []
                   · first
                     | (rw [if_pos d7, if_pos d7]; first | rfl | exact (List.append_nil _).symm | skip)
                     | (rw [if_pos d7]; first | rfl | exact (List.append_nil _).symm | skip)
                   · first
                     | (rw [if_neg d7, if_neg d7]; first | rfl | exact (List.append_nil _).symm | skip)
                     | (rw [if_neg d7]; first | rfl | exact (List.append_nil _).symm | skip))
              · try simp only [(Bool.not_eq_true _).mp c7, Bool.false_eq_true, ite_false, List.append_nil]
                by_cases c8 : (containsStr e.name ("psk_key_exchange_modes").toList) = true
                · try simp only [c8, eq_self_iff_true, ite_true, List.append_nil]
                  try rfl
                  try exact (List.append_nil _).symm
                · try simp only [(Bool.not_eq_true _).mp c8, Bool.false_eq_true, ite_false, List.append_nil]
                  by_cases c9 : (containsStr e.name ("session_ticket").toList) = true
                  · try simp only [c9, eq_self_iff_true, ite_true, List.append_nil]
                    try rfl
                    try exact (List.append_nil _).symm
                  · try simp only [(Bool.not_eq_true _).mp c9, Bool.false_eq_true, ite_false, List.append_nil]
                    by_cases c10 : (containsStr e.name ("status_request").toList) = true
                    · try simp only [c10, eq_self_iff_true, ite_true, List.append_nil]
                      try rfl
                      try exact (List.append_nil _).symm
                    · try simp only [(Bool.not_eq_true _).mp c10, Bool.false_eq_true, ite_false, List.append_nil]
                      by_cases c11 : (containsStr e.name ("signed_certificate_timestamp").toList) = true
                      · try simp only [c11, eq_self_iff_true, ite_true, List.append_nil]
                        try rfl
                        try exact (List.append_nil _).symm
                      · try simp only [(Bool.not_eq_true _).mp c11, Bool.false_eq_true, ite_false, List.append_nil]
                        by_cases c12 : (containsStr e.name ("extended_master_secret").toList) = true
                        · try simp only [c12, eq_self_iff_true, ite_true, List.append_nil]
                          try rfl
                          try exact (List.append_nil _).symm
                        · try simp only [(Bool.not_eq_true _).mp c12, Bool.false_eq_true, ite_false, List.append_nil]
                          by_cases c13 : (containsStr e.name ("renegotiation_info").toList || containsStr e.name ("extensionRenegotiationInfo").toList) = true
                          · try simp only [c13, eq_self_iff_true, ite_true, List.append_nil]
                            try rfl
                            try exact (List.append_nil _).symm
                          · try simp only [(Bool.not_eq_true _).mp c13, Bool.false_eq_true, ite_false, List.append_nil]
                            by_cases c14 : (containsStr e.name ("padding").toList) = true
                            · try simp only [c14, eq_self_iff_true, ite_true, List.append_nil]
                              try rfl
                              first
                              | done
                              | (by_cases d14 : e.paddingDataLength > 0
                                 · first
                                   | (rw [if_pos d14, if_pos d14]; first | rfl | exact (List.append_nil _).symm | skip)
                                   | (rw [if_pos d14]; first | rfl | exact (List.append_nil _).symm | skip)
                                 · first
                                   | (rw [if_neg d14, if_neg d14]; first | rfl | exact (List.append_nil _).symm | skip)
                                   | (rw [if_neg d14]; first | rfl | exact (List.append_nil _).symm | skip))
                            · try simp only [(Bool.not_eq_true _).mp c14, Bool.false_eq_true, ite_false, List.append_nil]
                              try simp only [List.append_nil]
                              try rfl
                              try exact (List.append_nil _).symm

theorem primaryStep_curves (st : PrimaryLoopState) (e : ExtensionJSON) :
    (primaryStep st e).curves = primaryCurvesUpd st.curves e := by
  unfold primaryStep primaryCurvesUpd
  by_cases c1 : (containsStr e.name ("server_name").toList) = true
  · try simp only [c1, eq_self_iff_true, ite_true, List.append_nil]
    try rfl
    first
    | done
    | (by_cases d1 : e.serverName ≠ []
       · first
         | (rw [if_pos d1, if_pos d1]; first | rfl | exact (List.append_nil _).symm | skip)
         | (rw [if_pos d1]; first | rfl | exact (List.append_nil _).symm | skip)
       · first
         | (rw [if_neg d1, if_neg d1]; first | rfl | exact (List.append_nil _).symm | skip)
         | (rw [if_neg d1]; first | rfl | exact (List.append_nil _).symm | skip))
  · try simp only [(Bool.not_eq_true _).mp c1, Bool.false_eq_true, ite_false, List.append_nil]
    by_cases c2 : (containsStr e.name ("supported_groups").toList) = true
    · try simp only [c2, eq_self_iff_true, ite_true, List.append_nil]
      try rfl
      try exact (List.append_nil _).symm
    · try simp only [(Bool.not_eq_true _).mp c2, Bool.false_eq_true, ite_false, List.append_nil]
      by_cases c3 : (containsStr e.name ("ec_point_formats").toList) = true
      · try simp only [c3, eq_self_iff_true, ite_true, List.append_nil]
        try rfl
        try exact (List.append_nil _).symm
      · try simp only [(Bool.not_eq_true _).mp c3, Bool.false_eq_true, ite_false, List.append_nil]
        by_cases c4 : (containsStr e.name ("application_layer_protocol_negotiation").toList) = true
        · try simp only [c4, eq_self_iff_true, ite_true, List.append_nil]
          try rfl
          try exact (List.append_nil _).symm
        · try simp only [(Bool.not_eq_true _).mp c4, Bool.false_eq_true, ite_false, List.append_nil]
          by_cases c5 : (containsStr e.name ("signature_algorithms").toList) = true
          · try simp only [c5, eq_self_iff_true, ite_true, List.append_nil]
            try rfl
            try exact (List.append_nil _).symm
          · try simp only [(Bool.not_eq_true _).mp c5, Bool.false_eq_true, ite_false, List.append_nil]
            by_cases c6 : (containsStr e.name ("supported_versions").toList) = true
            · try simp only [c6, eq_self_iff_true, ite_true, List.append_nil]
              try rfl
              try exact (List.append_nil _).symm
            · try simp only [(Bool.not_eq_true _).mp c6, Bool.false_eq_true, ite_false, List.append_nil]
              by_cases c7 : (containsStr e.name ("key_share").toList) = true
              · try simp only [c7, eq_self_iff_true, ite_true, List.append_nil]
                try rfl
                first
                | done
                | (by_cases d7 : st.curves ≠ []
                   · first
                     | (rw [if_pos d7, if_pos d7]; first | rfl | exact (List.append_nil _).symm | skip)
                     | (rw [if_pos d7]; first | rfl | exact (List.append_nil _).symm | skip)
                   · first
                     | (rw [if_neg d7, if_neg d7]; first | rfl | exact (List.append_nil _).symm | skip)
                     | (rw [if_neg d7]; first | rfl | exact (List.append_nil _).symm | skip))
              · try simp only [(Bool.not_eq_true _).mp c7, Bool.false_eq_true, ite_false, List.append_nil]
                by_cases c8 : (containsStr e.name ("psk_key_exchange_modes").toList) = true
                · try simp only [c8, eq_self_iff_true, ite_true, List.append_nil]
                  try rfl
                  try exact (List.append_nil _).symm
                · try simp only [(Bool.not_eq_true _).mp c8, Bool.false_eq_true, ite_false, List.append_nil]
                  by_cases c9 : (containsStr e.name ("session_ticket").toList) = true
                  · try simp only [c9, eq_self_iff_true, ite_true, List.append_nil]
                    try rfl
                    try exact (List.append_nil _).symm
                  · try simp only [(Bool.not_eq_true _).mp c9, Bool.false_eq_true, ite_false, List.append_nil]
                    by_cases c10 : (containsStr e.name ("status_request").toList) = true
                    · try simp only [c10, eq_self_iff_true, ite_true, List.append_nil]
                      try rfl
                      try exact (List.append_nil _).symm
                    · try simp only [(Bool.not_eq_true _).mp c10, Bool.false_eq_true, ite_false, List.append_nil]
                      by_cases c11 : (containsStr e.name ("signed_certificate_timestamp").toList) = true
                      · try simp only [c11, eq_self_iff_true, ite_true, List.append_nil]
                        try rfl
                        try exact (List.append_nil _).symm
                      · try simp only [(Bool.not_eq_true _).mp c11, Bool.false_eq_true, ite_false, List.append_nil]
                        by_cases c12 : (containsStr e.name ("extended_master_secret").toList) = true
                        · try simp only [c12, eq_self_iff_true, ite_true, List.append_nil]
                          try rfl
                          try exact (List.append_nil _).symm
                        · try simp only [(Bool.not_eq_true _).mp c12, Bool.false_eq_true, ite_false, List.append_nil]
                          by_cases c13 : (containsStr e.name ("renegotiation_info").toList || containsStr e.name ("extensionRenegotiationInfo").toList) = true
                          · try simp only [c13, eq_self_iff_true, ite_true, List.append_nil]
                            try rfl
                            try exact (List.append_nil _).symm
                          · try simp only [(Bool.not_eq_true _).mp c13, Bool.false_eq_true, ite_false, List.append_nil]
                            by_cases c14 : (containsStr e.name ("padding").toList) = true
                            · try simp only [c14, eq_self_iff_true, ite_true, List.append_nil]
                              try rfl
                              first
                              | done
                              | (by_cases d14 : e.paddingDataLength > 0
                                 · first
                                   | (rw [if_pos d14, if_pos d14]; first | rfl | exact (List.append_nil _).symm | skip)
                                   | (rw [if_pos d14]; first | rfl | exact (List.append_nil _).symm | skip)
                                 · first
                                   | (rw [if_neg d14, if_neg d14]; first | rfl | exact (List.append_nil _).symm | skip)
                                   | (rw [if_neg d14]; first | rfl | exact (List.append_nil _).symm | skip))
                            · try simp only [(Bool.not_eq_true _).mp c14, Bool.false_eq_true, ite_false, List.append_nil]
                              try simp only [List.append_nil]
                              try rfl
                              try exact (List.append_nil _).symm

theorem fallbackStep_exts (serverName : Str) (st : FallbackLoopState) (e : ExtensionJSON) :
    (fallbackStep serverName st e).exts = st.exts ++ fallbackLoopEmit serverName e := by
  unfold fallbackStep fallbackLoopEmit
  by_cases c1 : (containsStr e.name ("server_name").toList) = true
  · try simp only [c1, eq_self_iff_true, ite_true, List.append_nil]
    try rfl
    first
    | done
    | (by_cases d1 : serverName ≠ []
       · first
         | (rw [if_pos d1, if_pos d1]; first | rfl | exact (List.append_nil _).symm | skip)
         | (rw [if_pos d1]; first | rfl | exact (List.append_nil _).symm | skip)
       · first
         | (rw [if_neg d1, if_neg d1]; first | rfl | exact (List.append_nil _).symm | skip)
         | (rw [if_neg d1]; first | rfl | exact (List.append_nil _).symm | skip))
  · try simp only [(Bool.not_eq_true _).mp c1, Bool.false_eq_true, ite_false, List.append_nil]
    by_cases c2 : (containsStr e.name ("supported_groups").toList) = true
    · try simp only [c2, eq_self_iff_true, ite_true, List.append_nil]
      try rfl
      try exact (List.append_nil _).symm
    · try simp only [(Bool.not_eq_true _).mp c2, Bool.false_eq_true, ite_false, List.append_nil]
      by_cases c3 : (containsStr e.name ("ec_point_formats").toList) = true
      · try simp only [c3, eq_self_iff_true, ite_true, List.append_nil]
        try rfl
        try exact (List.append_nil _).symm
      · try simp only [(Bool.not_eq_true _).mp c3, Bool.false_eq_true, ite_false, List.append_nil]
        by_cases c4 : (containsStr e.name ("signature_algorithms").toList) = true
        · try simp only [c4, eq_self_iff_true, ite_true, List.append_nil]
          try rfl
          try exact (List.append_nil _).symm
        · try simp only [(Bool.not_eq_true _).mp c4, Bool.false_eq_true, ite_false, List.append_nil]
          by_cases c5 : (containsStr e.name ("application_layer_protocol_negotiation").toList) = true
          · try simp only [c5, eq_self_iff_true, ite_true, List.append_nil]
            try rfl
            try exact (List.append_nil _).symm
          · try simp only [(Bool.not_eq_true _).mp c5, Bool.false_eq_true, ite_false, List.append_nil]
            by_cases c6 : (containsStr e.name ("supported_versions").toList) = true
            · try simp only [c6, eq_self_iff_true, ite_true, List.append_nil]
              try rfl
              try exact (List.append_nil _).symm
            · try simp only [(Bool.not_eq_true _).mp c6, Bool.false_eq_true, ite_false, List.append_nil]
              by_cases c7 : (containsStr e.name ("key_share").toList) = true
              · try simp only [c7, eq_self_iff_true, ite_true, List.append_nil]
                try rfl
                try exact (List.append_nil _).symm
              · try simp only [(Bool.not_eq_true _).mp c7, Bool.false_eq_true, ite_false, List.append_nil]
                by_cases c8 : (containsStr e.name ("padding").toList) = true
                · try simp only [c8, eq_self_iff_true, ite_true, List.append_nil]
                  try rfl
                  first
                  | done
                  | (by_cases d8 : e.paddingDataLength > 0
                     · first
                       | (rw [if_pos d8, if_pos d8]; first | rfl | exact (List.append_nil _).symm | skip)
                       | (rw [if_pos d8]; first | rfl | exact (List.append_nil _).symm | skip)
                     · first
                       | (rw [if_neg d8, if_neg d8]; first | rfl | exact (List.append_nil _).symm | skip)
                       | (rw [if_neg d8]; first | rfl | exact (List.append_nil _).symm | skip))
                · try simp only [(Bool.not_eq_true _).mp c8, Bool.false_eq_true, ite_false, List.append_nil]
                  by_cases c9 : (containsStr e.name ("session_ticket").toList) = true
                  · try simp only [c9, eq_self_iff_true, ite_true, List.append_nil]
                    try rfl
                    try exact (List.append_nil _).symm
                  · try simp only [(Bool.not_eq_true _).mp c9, Bool.false_eq_true, ite_false, List.append_nil]
                    by_cases c10 : (containsStr e.name ("extended_master_secret").toList) = true
                    · try simp only [c10, eq_self_iff_true, ite_true, List.append_nil]
                      try rfl
                      try exact (List.append_nil _).symm
                    · try simp only [(Bool.not_eq_true _).mp c10, Bool.false_eq_true, ite_false, List.append_nil]
                      by_cases c11 : (containsStr e.name ("status_request").toList) = true
                      · try simp only [c11, eq_self_iff_true, ite_true, List.append_nil]
                        try rfl
                        try exact (List.append_nil _).symm
                      · try simp only [(Bool.not_eq_true _).mp c11, Bool.false_eq_true, ite_false, List.append_nil]
                        by_cases c12 : (containsStr e.name ("psk_key_exchange_modes").toList) = true
                        · try simp only [c12, eq_self_iff_true, ite_true, List.append_nil]
                          try rfl
                          try exact (List.append_nil _).symm
                        · try simp only [(Bool.not_eq_true _).mp c12, Bool.false_eq_true, ite_false, List.append_nil]
                          by_cases c13 : (containsStr e.name ("signed_certificate_timestamp").toList) = true
                          · try simp only [c13, eq_self_iff_true, ite_true, List.append_nil]
                            try rfl
                            try exact (List.append_nil _).symm
                          · try simp only [(Bool.not_eq_true _).mp c13, Bool.false_eq_true, ite_false, List.append_nil]
                            by_cases c14 : (containsStr e.name ("renegotiation_info").toList) = true
                            · try simp only [c14, eq_self_iff_true, ite_true, List.append_nil]
                              try rfl
                              try exact (List.append_nil _).symm
                            · try simp only [(Bool.not_eq_true _).mp c14, Bool.false_eq_true, ite_false, List.append_nil]
                              try simp only [List.append_nil]
                              try rfl
                              try exact (List.append_nil _).symm


theorem primary_foldl_exts (l : List ExtensionJSON) :
    ∀ st : PrimaryLoopState,
      (l.foldl primaryStep st).exts = st.exts ++ primaryEmitList st.curves l := by
  induction l with
  | nil => intro st; simp [primaryEmitList]
  | cons e rest ih =>
    intro st
    rw [List.foldl_cons, ih (primaryStep st e), primaryStep_exts, primaryStep_curves,
      primaryEmitList, List.append_assoc]

theorem fallback_foldl_exts (serverName : Str) (l : List ExtensionJSON) :
    ∀ st : FallbackLoopState,
      (l.foldl (fallbackStep serverName) st).exts
        = st.exts ++ l.flatMap (fallbackLoopEmit serverName) := by
  induction l with
  | nil => intro st; simp
  | cons e rest ih =>
    intro st
    rw [List.foldl_cons, ih (fallbackStep serverName st e), fallbackStep_exts,
      List.flatMap_cons, List.append_assoc]

/-- C3 (corrected): the primary (tls.peet.ws) builder emits extensions
strictly in descriptor-array order — each object contributes its
emissions at its position (objects contributing nothing are skipped) —
but the fallback builder emits only part of the extensions inside the
loop: the collected supported-groups, ec-point-formats,
signature-algorithms, supported-versions and ALPN extensions are
appended after all in-loop extensions, so its extension order does not
in general equal the descriptor-array order. -/
theorem json_extension_order :
    (∀ chJSON : ClientHelloJSON,
      (buildClientHelloSpecFromJSON chJSON).extensions
        = primaryEmitList [] chJSON.extensions)
    ∧ (∀ (spec : ClientHelloSpecFile) (serverName : Str),
      (buildClientHelloSpecFromFile spec serverName).extensions
        = spec.extensions.flatMap (fallbackLoopEmit serverName)
          ++ fallbackCollected
              (spec.extensions.foldl (fallbackStep serverName) ⟨[], [], [], [], [], []⟩)) := by
  constructor
  · intro chJSON
    show (chJSON.extensions.foldl primaryStep ⟨[], [], [], []⟩).exts = _
    rw [primary_foldl_exts]
    rfl
  · intro spec serverName
    show (spec.extensions.foldl (fallbackStep serverName) ⟨[], [], [], [], [], []⟩).exts
        ++ _ = _
    rw [fallback_foldl_exts]
    rfl

/-- C3 counterexample: for the fallback schema and the descriptor whose
extension array is [supported_groups(X25519 (29)), session_ticket], the
built spec's extensions are [SessionTicket, SupportedGroups[29]] — the
reverse of the array order — so "extension order equals JSON extension
array order" fails. -/
theorem fallback_order_not_array_order :
    (buildClientHelloSpecFromFile
        ⟨[], [⟨("supported_groups").toList, [], [], [("X25519 (29)").toList], [], [], [], 0⟩,
              ⟨("session_ticket").toList, [], [], [], [], [], [], 0⟩], []⟩ []).extensions
      = [.sessionTicket, .supportedGroups [29]]
    ∧ List.map objKindFallback
        [(⟨("supported_groups").toList, [], [], [("X25519 (29)").toList], [], [], [], 0⟩ : ExtensionJSON),
         ⟨("session_ticket").toList, [], [], [], [], [], [], 0⟩]
      = [.kGroups, .kSessionTicket]
    ∧ List.map extKind [TLSExtension.sessionTicket, TLSExtension.supportedGroups [29]]
      ≠ [ExtKind.kGroups, ExtKind.kSessionTicket] := by
  refine ⟨by decide, by decide, by decide⟩
